import Mathlib

/-!
Shallow embedding of the Continuity Engine
(`src/main/lib/continuity/index.ts` together with the continuity section of
the shared config module) and proofs about its specification claims.

Conventions used throughout:
* TypeScript strings are modelled as Lean `String` (sequences of Unicode
  scalar values) everywhere except in `clampByBytes`, where JavaScript's
  UTF-16 representation is observable because `String.prototype.slice` cuts
  at UTF-16 code-unit boundaries and can split a surrogate pair.  For that
  function we additionally give an exact UTF-16 code-unit model
  (`JSStr := List Nat`).
* `Buffer.byteLength(s, "utf8")` is modelled by `byteLen` (the sum of the
  UTF-8 sizes of the scalars; Node produces exactly these bytes for
  well-formed strings).
* Database rows and in-memory `Map`s are modelled as association lists /
  lists of records; `onConflictDoUpdate` upserts become `upsert` on the
  association list.
* Best-effort persistence (`try { ... } catch {}`) is modelled as the
  successful path; the claims under study quantify over arbitrary prior
  states, so a lost write is just another admissible state.
-/

namespace Continuity

/-! ## Byte length of a scalar string (Buffer.byteLength(·, "utf8")) -/

/-- Models `Buffer.byteLength(s, "utf8")` on a list of Unicode scalars. -/
def byteLenL (cs : List Char) : Nat := (cs.map Char.utf8Size).sum

/-- Models `Buffer.byteLength(s, "utf8")` for a scalar string. -/
def byteLen (s : String) : Nat := byteLenL s.data

theorem byteLenL_append (a b : List Char) :
    byteLenL (a ++ b) = byteLenL a + byteLenL b := by
  simp [byteLenL]

theorem byteLenL_nil : byteLenL [] = 0 := rfl

/-! ## clampByBytes, scalar-string rendering

Source (`clampByBytes` in `continuity/index.ts`):
```
const byteLength = Buffer.byteLength(value, "utf8")
if (byteLength <= maxBytes) return value
let current = value
while (Buffer.byteLength(current, "utf8") > maxBytes && current.length > 0) {
  current = current.slice(0, Math.floor(current.length * 0.85))
}
return current
```
`Math.floor(len * 0.85)` agrees with `len * 85 / 100` in exact integer
arithmetic for every feasible string length (the double product rounds back
to the exact value whenever `len` is a multiple of 20, and the fractional
part is at least 1/20 away from an integer otherwise), so the Nat division
below is a faithful model of the float expression. -/

/-- Models one `Math.floor(len * 0.85)` step of the truncation loop. -/
def shrink85 (len : Nat) : Nat := len * 85 / 100

theorem shrink85_lt (len : Nat) (h : 0 < len) : shrink85 len < len := by
  have : len * 85 < len * 100 := by omega
  exact Nat.div_lt_of_lt_mul (by omega)

/-- Models the `while` loop of `clampByBytes` on a list of Unicode scalars
(`slice(0, k)` becomes `List.take k`; see `clampUnitsLoop` for the exact
UTF-16 rendering). -/
def clampLoopChars (current : List Char) (maxBytes : Nat) : List Char :=
  if maxBytes < byteLenL current ∧ 0 < current.length then
    clampLoopChars (current.take (shrink85 current.length)) maxBytes
  else current
termination_by current.length
decreasing_by
  simp only [List.length_take]
  rename_i h
  have := shrink85_lt current.length h.2
  omega

/-- Models `clampByBytes` as used by the envelope/pack builders, on scalar
strings. -/
def clampByBytesS (value : String) (maxBytes : Nat) : String :=
  if byteLen value ≤ maxBytes then value
  else ⟨clampLoopChars value.data maxBytes⟩

/-! ## clampByBytes, exact UTF-16 code-unit rendering

JavaScript strings are sequences of UTF-16 code units, and
`String.prototype.slice` cuts at code-unit boundaries, so it can split a
surrogate pair.  `Buffer.byteLength(s, "utf8")` counts a lone surrogate as
3 bytes (Node encodes it as U+FFFD).  `JSStr` is the exact model. -/

/-- A JavaScript string: a list of UTF-16 code units (each `< 2^16`). -/
def JSStr := List Nat

/-- True for a UTF-16 high-surrogate code unit (0xD800–0xDBFF). -/
def isHighSurrogate (u : Nat) : Bool := 0xD800 ≤ u && u ≤ 0xDBFF

/-- True for a UTF-16 low-surrogate code unit (0xDC00–0xDFFF). -/
def isLowSurrogate (u : Nat) : Bool := 0xDC00 ≤ u && u ≤ 0xDFFF

/-- Models `Buffer.byteLength(s, "utf8")` on UTF-16 code units, including
Node's behaviour on lone surrogates (encoded as the 3-byte U+FFFD). -/
def utf16Utf8Len : List Nat → Nat
  | [] => 0
  | u :: rest =>
    if u < 0x80 then 1 + utf16Utf8Len rest
    else if u < 0x800 then 2 + utf16Utf8Len rest
    else if isHighSurrogate u then
      match rest with
      | [] => 3
      | v :: rest2 =>
        if isLowSurrogate v then 4 + utf16Utf8Len rest2
        else 3 + utf16Utf8Len (v :: rest2)
    else 3 + utf16Utf8Len rest
termination_by l => l.length
decreasing_by all_goals (simp [List.length_cons]; try omega)

/-- A UTF-16 sequence is well formed (encodes Unicode text with no partial
code point) when every high surrogate is followed by a low surrogate and no
low surrogate appears unpaired. -/
def utf16WellFormed : List Nat → Bool
  | [] => true
  | u :: rest =>
    if isHighSurrogate u then
      match rest with
      | [] => false
      | v :: rest2 => isLowSurrogate v && utf16WellFormed rest2
    else if isLowSurrogate u then false
    else utf16WellFormed rest

/-- Models the `while` loop of `clampByBytes` on UTF-16 code units
(`current.length` and `slice` count code units, exactly as in JavaScript). -/
def clampUnitsLoop (current : List Nat) (maxBytes : Nat) : List Nat :=
  if maxBytes < utf16Utf8Len current ∧ 0 < current.length then
    clampUnitsLoop (current.take (shrink85 current.length)) maxBytes
  else current
termination_by current.length
decreasing_by
  simp only [List.length_take]
  rename_i h
  have := shrink85_lt current.length h.2
  omega

/-- Models `clampByBytes` exactly, on UTF-16 code units. -/
def clampByBytes (value : List Nat) (maxBytes : Nat) : List Nat :=
  if utf16Utf8Len value ≤ maxBytes then value
  else clampUnitsLoop value maxBytes

theorem clampUnitsLoop_take (current : List Nat) (maxBytes : Nat) :
    ∃ k, clampUnitsLoop current maxBytes = current.take k := by
  induction current, maxBytes using clampUnitsLoop.induct with
  | case1 current maxBytes h ih =>
    obtain ⟨k, hk⟩ := ih
    refine ⟨min k (shrink85 current.length), ?_⟩
    rw [clampUnitsLoop, if_pos h, hk, List.take_take]
  | case2 current maxBytes h =>
    exact ⟨current.length, by rw [clampUnitsLoop, if_neg h, List.take_length]⟩

/-- C3 (code bug): a concrete run of `clamp_by_bytes` that violates the
specified "valid UTF-8, no partial code points" guarantee.  The JavaScript
string `"a😀"` is the code-unit sequence `[97, 0xD83D, 0xDE00]` (5 UTF-8
bytes).  Clamping it to 4 bytes slices at `Math.floor(3 * 0.85) = 2` code
units, splitting the surrogate pair: the result ends in the unpaired high
surrogate 0xD83D, which is not valid UTF-8. -/
theorem clampByBytes_splits_surrogate_pair :
    utf16WellFormed [97, 0xD83D, 0xDE00] = true ∧
    utf16Utf8Len [97, 0xD83D, 0xDE00] = 5 ∧
    clampByBytes [97, 0xD83D, 0xDE00] 4 = [97, 0xD83D] ∧
    utf16WellFormed (clampByBytes [97, 0xD83D, 0xDE00] 4) = false := by
  refine ⟨?_, ?_, ?_, ?_⟩ <;>
    simp [clampByBytes, clampUnitsLoop, shrink85, utf16Utf8Len,
      utf16WellFormed, isHighSurrogate, isLowSurrogate]

/-- C10: `clamp_by_bytes` is total (the truncation loop terminates — each
iteration strictly shortens a non-empty string since
`Math.floor(0.85 * len) < len` for `len ≥ 1`, and the loop stops on the
empty string) and its result is always a prefix of the input, i.e. a
`take` of the original code-unit sequence.  Totality is witnessed by
`clampByBytes` being a function Lean accepts as terminating. -/
theorem clampByBytes_total_and_exact_prefix :
    (∀ (s : List Nat) (n : Nat), ∃ k, clampByBytes s n = s.take k) ∧
    (∀ (s : List Nat) (n : Nat), (clampByBytes s n).length ≤ s.length) ∧
    (∀ len : Nat, shrink85 (len + 1) < len + 1) := by
  have hpre : ∀ (s : List Nat) (n : Nat), ∃ k, clampByBytes s n = s.take k := by
    intro s n
    unfold clampByBytes
    by_cases h : utf16Utf8Len s ≤ n
    · exact ⟨s.length, by rw [if_pos h, List.take_length]⟩
    · obtain ⟨k, hk⟩ := clampUnitsLoop_take s n
      exact ⟨k, by rw [if_neg h, hk]⟩
  refine ⟨hpre, ?_, fun len => shrink85_lt _ (by omega)⟩
  intro s n
  obtain ⟨k, hk⟩ := hpre s n
  rw [hk, List.length_take]
  omega

/-! ## SHA-256 (the source's `sha` helper, `createHash("sha256")...digest("hex")`) -/

/-- Right-rotation of a 32-bit word. -/
def rotr32 (x n : Nat) : Nat := ((x >>> n) ||| (x <<< (32 - n))) % 4294967296

/-- The SHA-256 round constants. -/
def shaK : List Nat :=
  [1116352408, 1899447441, 3049323471, 3921009573, 961987163, 1508970993,
   2453635748, 2870763221, 3624381080, 310598401, 607225278, 1426881987,
   1925078388, 2162078206, 2614888103, 3248222580, 3835390401, 4022224774,
   264347078, 604807628, 770255983, 1249150122, 1555081692, 1996064986,
   2554220882, 2821834349, 2952996808, 3210313671, 3336571891, 3584528711,
   113926993, 338241895, 666307205, 773529912, 1294757372, 1396182291,
   1695183700, 1986661051, 2177026350, 2456956037, 2730485921, 2820302411,
   3259730800, 3345764771, 3516065817, 3600352804, 4094571909, 275423344,
   430227734, 506948616, 659060556, 883997877, 958139571, 1322822218,
   1537002063, 1747873779, 1955562222, 2024104815, 2227730452, 2361852424,
   2428436474, 2756734187, 3204031479, 3329325298]

/-- The SHA-256 initial hash value. -/
def shaH0 : List Nat :=
  [1779033703, 3144134277, 1013904242, 2773480762, 1359893119, 2600822924,
   528734635, 1541459225]

/-- Big-endian 4-byte groups of a byte list into 32-bit words. -/
def bytesToWords : List Nat → List Nat
  | b0 :: b1 :: b2 :: b3 :: rest =>
    (((b0 * 256 + b1) * 256 + b2) * 256 + b3) :: bytesToWords rest
  | _ => []

/-- Big-endian byte rendering of `n` in `count` bytes. -/
def natToBytesBE (n count : Nat) : List Nat :=
  (List.range count).map (fun i => (n >>> (8 * (count - 1 - i))) % 256)

/-- One SHA-256 round on the eight-word working state. -/
def sha256Round (st : List Nat) (kw : Nat × Nat) : List Nat :=
  let a := st.getD 0 0
  let b := st.getD 1 0
  let c := st.getD 2 0
  let d := st.getD 3 0
  let e := st.getD 4 0
  let f := st.getD 5 0
  let g := st.getD 6 0
  let h := st.getD 7 0
  let s1 := rotr32 e 6 ^^^ rotr32 e 11 ^^^ rotr32 e 25
  let ch := (e &&& f) ^^^ ((e ^^^ 0xFFFFFFFF) &&& g)
  let temp1 := (h + s1 + ch + kw.1 + kw.2) % 4294967296
  let s0 := rotr32 a 2 ^^^ rotr32 a 13 ^^^ rotr32 a 22
  let maj := (a &&& b) ^^^ (a &&& c) ^^^ (b &&& c)
  let temp2 := (s0 + maj) % 4294967296
  [(temp1 + temp2) % 4294967296, a, b, c, (d + temp1) % 4294967296, e, f, g]

/-- The SHA-256 message-schedule extension of 16 words to 64. -/
def sha256Schedule (ws0 : List Nat) : List Nat :=
  let step := fun (arr : Array Nat) (_ : Nat) =>
    let n := arr.size
    let w15 := arr.getD (n - 15) 0
    let w2 := arr.getD (n - 2) 0
    let w16 := arr.getD (n - 16) 0
    let w7 := arr.getD (n - 7) 0
    let sig0 := rotr32 w15 7 ^^^ rotr32 w15 18 ^^^ (w15 >>> 3)
    let sig1 := rotr32 w2 17 ^^^ rotr32 w2 19 ^^^ (w2 >>> 10)
    arr.push ((sig1 + w7 + sig0 + w16) % 4294967296)
  ((List.range 48).foldl step ws0.toArray).toList

/-- SHA-256 compression of one 64-byte block into the running hash. -/
def sha256CompressBlock (h : List Nat) (block : List Nat) : List Nat :=
  let ws := sha256Schedule (bytesToWords block)
  let final := (shaK.zip ws).foldl sha256Round h
  List.zipWith (fun x y => (x + y) % 4294967296) h final

/-- SHA-256 padding of a message to a multiple of 64 bytes. -/
def sha256Pad (msg : List Nat) : List Nat :=
  let len := msg.length
  let zeros := (64 + 56 - ((len + 1) % 64)) % 64
  msg ++ [0x80] ++ List.replicate zeros 0 ++ natToBytesBE (len * 8) 8

/-- Splits a byte list into 64-byte blocks. -/
def chunks64 (l : List Nat) : List (List Nat) :=
  if l.isEmpty then [] else l.take 64 :: chunks64 (l.drop 64)
termination_by l.length
decreasing_by
  rename_i h
  simp only [List.isEmpty_eq_true] at h
  have : 0 < l.length := List.length_pos.mpr h
  simp only [List.length_drop]
  omega

/-- SHA-256 digest (32 bytes) of a byte list. -/
def sha256Bytes (msg : List Nat) : List Nat :=
  let hs := (chunks64 (sha256Pad msg)).foldl sha256CompressBlock shaH0
  hs.flatMap (fun w => natToBytesBE w 4)

/-- UTF-8 encoding of one Unicode scalar. -/
def utf8EncodeChar (c : Char) : List Nat :=
  let n := c.toNat
  if n < 0x80 then [n]
  else if n < 0x800 then [0xC0 ||| (n >>> 6), 0x80 ||| (n &&& 0x3F)]
  else if n < 0x10000 then
    [0xE0 ||| (n >>> 12), 0x80 ||| ((n >>> 6) &&& 0x3F), 0x80 ||| (n &&& 0x3F)]
  else
    [0xF0 ||| (n >>> 18), 0x80 ||| ((n >>> 12) &&& 0x3F),
     0x80 ||| ((n >>> 6) &&& 0x3F), 0x80 ||| (n &&& 0x3F)]

/-- UTF-8 encoding of a scalar string (what `createHash(...).update(s)` hashes). -/
def utf8Encode (s : String) : List Nat := s.data.flatMap utf8EncodeChar

/-- The sixteen lowercase hex digit characters. -/
def hexChars : List Char := "0123456789abcdef".data

/-- Hex digit character for a value `< 16`. -/
def hexChar (n : Nat) : Char := hexChars.getD n '0'

/-- Lowercase hex rendering of a byte list (`digest("hex")`). -/
def bytesToHex (bs : List Nat) : String :=
  ⟨bs.flatMap (fun b => [hexChar (b / 16 % 16), hexChar (b % 16)])⟩

/-- Models the source's `sha` helper:
`createHash("sha256").update(input).digest("hex")`. -/
def sha (input : String) : String := bytesToHex (sha256Bytes (utf8Encode input))

theorem hexChar_mem (n : Nat) : hexChar n ∈ hexChars := by
  unfold hexChar
  by_cases h : n < hexChars.length
  · rw [List.getD_eq_getElem _ _ h]
    exact List.getElem_mem _
  · rw [List.getD_eq_default _ _ (by omega)]
    decide

theorem hexChar_ne_colon (n : Nat) : hexChar n ≠ ':' := by
  have h := hexChar_mem n
  revert h
  unfold hexChars
  intro h hc
  rw [hc] at h
  simp at h

/-- No colon ever occurs in a hex digest produced by `sha`. -/
theorem colon_not_mem_sha (x : String) : ':' ∉ (sha x).data := by
  unfold sha bytesToHex
  intro hmem
  simp only [List.mem_flatMap] at hmem
  obtain ⟨b, _, hb⟩ := hmem
  simp only [List.mem_cons, List.mem_singleton] at hb
  rcases hb with h | h | h
  · exact hexChar_ne_colon _ h.symm
  · exact hexChar_ne_colon _ h.symm
  · simp at h

/-! ## Small string helpers shared by the service model -/

/-- Models `Array.prototype.join(sep)` (agrees with `String.intercalate`). -/
def joinSep (sep : String) : List String → String
  | [] => ""
  | [x] => x
  | x :: xs => x ++ sep ++ joinSep sep xs

/-- Models `Array.prototype.join(":")`. -/
def joinColon : List String → String := joinSep ":"

theorem joinSep_cons_cons (sep a b : String) (rest : List String) :
    joinSep sep (a :: b :: rest) = a ++ sep ++ joinSep sep (b :: rest) := rfl

theorem joinSep_ne_empty (sep a : String) (rest : List String)
    (ha : a.data ≠ []) : joinSep sep (a :: rest) ≠ "" := by
  intro h
  cases rest with
  | nil => exact ha (congrArg String.data h)
  | cons b bs =>
    rw [joinSep_cons_cons] at h
    have := congrArg String.data h
    simp [String.data_append] at this
    exact ha this.1

theorem colon_mem_joinColon (a b : String) (rest : List String) :
    ':' ∈ (joinColon (a :: b :: rest)).data := by
  show ':' ∈ (a ++ ":" ++ joinSep ":" (b :: rest)).data
  simp [String.data_append]

/-- A key of the pack cache is never equal to any `sha` digest: it is a
colon-join of at least two fields, hence contains a colon, while hex
digests never do. -/
theorem joinColon_ne_sha (a b : String) (rest : List String) (x : String) :
    joinColon (a :: b :: rest) ≠ sha x := by
  intro h
  have hmem := colon_mem_joinColon a b rest
  rw [h] at hmem
  exact colon_not_mem_sha x hmem

/-- Models `s.slice(0, n)` on a scalar string. -/
def jsSliceStr (s : String) (n : Nat) : String := ⟨s.data.take n⟩

/-- Models `s.trim()` (strips leading and trailing whitespace). -/
def strTrim (s : String) : String :=
  ⟨((s.data.dropWhile Char.isWhitespace).reverse.dropWhile Char.isWhitespace).reverse⟩

/-- Models `s.toLowerCase()` for the ASCII range. -/
def strToLower (s : String) : String := ⟨s.data.map Char.toLower⟩

/-- Models `s.startsWith(pat)`. -/
def strStartsWith (s pat : String) : Bool := pat.data.isPrefixOf s.data

/-- Models `s.slice(n)` (drop the first `n` characters). -/
def strDrop (s : String) (n : Nat) : String := ⟨s.data.drop n⟩

/-- Splits a character list at every occurrence of `sep` (the result always
has one more piece than there are separators). -/
def splitOnCharL (sep : Char) : List Char → List (List Char)
  | [] => [[]]
  | x :: xs =>
    let rest := splitOnCharL sep xs
    if x = sep then [] :: rest
    else (x :: rest.headD []) :: rest.tail

/-- Models `s.split(sep)` for a one-character separator. -/
def splitOnChar (sep : Char) (s : String) : List String :=
  (splitOnCharL sep s.data).map (fun l => (⟨l⟩ : String))

/-- Models `hay.includes(pat)` (substring containment). -/
def strContainsSub (hay pat : String) : Bool :=
  hay.data.tails.any (fun t => pat.data.isPrefixOf t)

/-- Models `x || "none"` for a string (empty is falsy). -/
def orNone (s : String) : String := if s = "" then "none" else s

theorem length_dropWhile_le (p : Char → Bool) (l : List Char) :
    (l.dropWhile p).length ≤ l.length := by
  induction l with
  | nil => simp
  | cons c cs ih => by_cases h : p c <;> (simp [List.dropWhile, h]; try omega)

/-- Collapses every maximal whitespace run to a single space
(`replace` of each whitespace run by a space). -/
def collapseWS : List Char → List Char
  | [] => []
  | c :: cs =>
    if c.isWhitespace then ' ' :: collapseWS (cs.dropWhile Char.isWhitespace)
    else c :: collapseWS cs
termination_by l => l.length
decreasing_by
  all_goals simp only [List.length_cons]
  · exact Nat.lt_succ_of_le (length_dropWhile_le _ _)
  · omega

/-- Models the source's `normalizePrompt`:
`prompt.trim().toLowerCase().replace` of whitespace runs by single spaces. -/
def normalizePrompt (prompt : String) : String :=
  ⟨collapseWS (strToLower (strTrim prompt)).data⟩

/-- Deduplication keeping the first occurrence, in order
(`[...new Set(parts)]`). -/
def dedupFirst (l : List String) : List String :=
  l.foldl (fun acc x => if acc.contains x then acc else acc ++ [x]) []

/-! ## Data model -/

/-- The continuity mode (`off`, `passive`, `active`). -/
inductive CMode | off | passive | active
deriving DecidableEq, Repr

/-- Providers the engine serves. -/
inductive Provider | claude | codex
deriving DecidableEq, Repr

/-- String rendering of a provider (as interpolated into the cache key). -/
def Provider.str : Provider → String
  | .claude => "claude"
  | .codex => "codex"

/-- Chat mode of a sub-session. -/
inductive ChatMode | plan | agent
deriving DecidableEq, Repr

/-- String rendering of a chat mode (as interpolated into the cache key). -/
def ChatMode.str : ChatMode → String
  | .plan => "plan"
  | .agent => "agent"

/-- The repo probe result (`getRepoState`). -/
structure RepoState where
  headCommit : String
  changedFiles : List String
  changedFilesHash : String
deriving DecidableEq, Repr

/-- A budget profile (`ContinuityBudgetProfile` in the config module). -/
structure BudgetProfile where
  maxPackBytes : Nat
  maxContextFiles : Nat
  maxContextSummaryBytes : Nat
  maxFileReadBytes : Nat
deriving DecidableEq, Repr

/-- Token modes selecting a budget profile. -/
inductive TokenMode | low | normal | debug
deriving DecidableEq, Repr

/-- Models `getContinuityBudgetProfile` from the config module. -/
def getContinuityBudgetProfile : TokenMode → BudgetProfile
  | .low => ⟨14000, 4, 9000, 90000⟩
  | .debug => ⟨42000, 12, 24000, 300000⟩
  | .normal => ⟨24000, 8, 16000, 180000⟩

/-! ## Keyword extraction -/

/-- The stopword set filtered during keyword extraction. -/
def stopwords : List String :=
  ["the", "this", "that", "with", "from", "into", "about", "would", "could",
   "should", "there", "their", "your", "need", "have", "please", "just",
   "when", "what", "where", "which", "while", "after", "before", "code",
   "repo", "project"]

/-- Characters kept by the tokenizer split (lowercase letters, digits,
underscore, dot, slash, dash; the source splits on maximal runs of all
other characters). -/
def isKeywordChar (c : Char) : Bool :=
  ('a' ≤ c && c ≤ 'z') || ('0' ≤ c && c ≤ '9') ||
    c == '_' || c == '.' || c == '/' || c == '-'

/-- Maximal runs of keyword characters of a character list (the pieces the
source's regex split produces, minus the empty edge pieces, which the
length-≥-4 filter removes anyway; `trim` is the identity on such runs). -/
def keywordRuns (acc : List Char) : List Char → List (List Char)
  | [] => if acc.isEmpty then [] else [acc.reverse]
  | c :: cs =>
    if isKeywordChar c then keywordRuns (c :: acc) cs
    else if acc.isEmpty then keywordRuns [] cs
    else acc.reverse :: keywordRuns [] cs

/-- Models `extractKeywords`: lowercase, split on non-keyword characters,
trim, keep tokens of length ≥ 4 that are not stopwords, deduplicate
preserving first occurrence, keep the first 6. -/
def extractKeywords (prompt : String) : List String :=
  let parts := ((keywordRuns [] (strToLower prompt).data).map
      (fun l => (⟨l⟩ : String))).filter
    (fun part => 4 ≤ part.length && !(stopwords.contains part))
  (dedupFirst parts).take 6

/-! ## File summary builder -/

/-- Models the JavaScript `\w` character class. -/
def isWordChar (c : Char) : Bool := c.isAlphanum || c == '_'

/-- Matches the source regex alternative `kw` followed by one-or-more
whitespace characters and a word character, at the start of a trimmed
line. -/
def matchesKeywordIdent (kw : String) (t : String) : Bool :=
  strStartsWith t kw &&
    (let rest := (strDrop t kw.length).data
     !(rest.takeWhile Char.isWhitespace).isEmpty &&
       (match rest.dropWhile Char.isWhitespace with
        | c :: _ => isWordChar c
        | [] => false))

/-- Models the symbol-line regex of `buildFileSummary` (anchored
alternation of `export` + whitespace, `module.exports`, and
`class`/`function`/`interface`/`type` + whitespace + word character)
applied to a trimmed line. -/
def symbolLineTest (t : String) : Bool :=
  (strStartsWith t "export" &&
    (match (strDrop t 6).data with
     | c :: _ => c.isWhitespace
     | [] => false)) ||
  strStartsWith t "module.exports" ||
  matchesKeywordIdent "class" t ||
  matchesKeywordIdent "function" t ||
  matchesKeywordIdent "interface" t ||
  matchesKeywordIdent "type" t

/-- Models `buildFileSummary`. -/
def buildFileSummary (filePath content : String) : String :=
  let lines := splitOnChar '\n' content
  let exportLike := ((lines.filter (fun l => symbolLineTest (strTrim l))).take 12).map strTrim
  let firstNonEmpty := (((lines.find? (fun l => 0 < (strTrim l).length)).map strTrim).getD "")
  let details := ["file: " ++ filePath, "lines: " ++ toString lines.length]
  let details := if firstNonEmpty ≠ "" then
      details ++ ["first_line: " ++ jsSliceStr firstNonEmpty 120] else details
  let details := if !exportLike.isEmpty then
      details ++ ["symbols: " ++ jsSliceStr (joinSep " | " exportLike) 900]
    else details
  joinSep "\n" details

/-! ## Relevant-file search

The in-memory and persisted search caches return a previously computed
result for the same `(repoRoot, headCommit, keywords)` key; during a single
computation they are observationally the recomputation below, which is what
the claims quantify over (TTL-staleness across repo changes is outside the
claims under study). -/

/-- Models `path.basename` for the relative paths produced by `rg --files`
(last slash-separated component). -/
def jsBasename (p : String) : String :=
  match ((splitOnChar '/' p).filter (fun c => c ≠ "")).getLast? with
  | some comp => comp
  | none => p

/-- Per-file score: +3 for a keyword occurring in the lowercased path, +4
more for it occurring in the lowercased basename. -/
def scoreFile (keywords : List String) (filePath : String) : Nat :=
  let lower := strToLower filePath
  keywords.foldl (fun score kw =>
    let s1 := if strContainsSub lower kw then score + 3 else score
    if strContainsSub (jsBasename lower) kw then s1 + 4 else s1) 0

/-- Stable insertion step for descending sort by score (used right-to-left
by `sortByScoreDesc`): an earlier element is inserted before every later
element of equal or smaller score. -/
def insertDesc (x : String × Nat) : List (String × Nat) → List (String × Nat)
  | [] => [x]
  | y :: ys => if y.2 ≤ x.2 then x :: y :: ys else y :: insertDesc x ys

/-- Stable descending sort by score, modelling the ES2019-stable
`sort((a, b) => b.score - a.score)`. -/
def sortByScoreDesc (l : List (String × Nat)) : List (String × Nat) :=
  l.foldr insertDesc []

/-- Models `searchRelevantFiles` (cache-transparently): score the listing,
keep positive scores, sort descending by score (stable), take 24. -/
def searchRelevantFiles (listing : List String) (keywords : List String) : List String :=
  if keywords.isEmpty then []
  else
    let scored := (listing.map (fun f => (f, scoreFile keywords f))).filter
      (fun e => 0 < e.2)
    ((sortByScoreDesc scored).take 24).map Prod.fst

/-! ## Anchor, context and delta pack builders -/

/-- Models `buildAnchorPack`; the three options are the `fs.readFile`
results for `AGENTS.md`, `CLAUDE.md`, `README.md` (`none` = missing). -/
def buildAnchorPack (agents claude readme : Option String) : String :=
  let parts := ([("AGENTS.md", agents), ("CLAUDE.md", claude),
      ("README.md", readme)]).filterMap
    (fun e => e.2.map (fun content => "## " ++ e.1 ++ "\n" ++ clampByBytesS content 3000))
  if parts.isEmpty then "No anchor files found."
  else joinSep "\n\n" parts

/-- Models `readSummary`: `none` models a missing/non-regular file or one
whose size exceeds `maxFileReadBytes`; the summary caches are content-keyed
and therefore observationally the recomputation. -/
def readSummary (fileRead : String → Option String) (maxFileReadBytes : Nat)
    (relativePath : String) : Option String :=
  match fileRead relativePath with
  | none => none
  | some content =>
    if maxFileReadBytes < byteLen content then none
    else some (buildFileSummary relativePath content)

/-- Models the summary-accumulation loop of `buildContextPack` (the `break`
on exceeding the byte budget ends the whole loop). -/
def accumulateSummaries (readS : String → Option String) (cap : Nat) :
    List String → Nat → List String
  | [], _ => []
  | f :: fs, total =>
    match readS f with
    | none => accumulateSummaries readS cap fs total
    | some summary =>
      let nextBytes := byteLen summary
      if cap < total + nextBytes then []
      else summary :: accumulateSummaries readS cap fs (total + nextBytes)

/-- Models `buildContextPack`. -/
def buildContextPack (fileRead : String → Option String) (listing : List String)
    (repoState : RepoState) (prompt : String) (budget : BudgetProfile) : String :=
  let keywords := extractKeywords prompt
  let searchHits := searchRelevantFiles listing keywords
  let candidateFiles := repoState.changedFiles.take 4 ++ searchHits
  let uniqueFiles := (dedupFirst candidateFiles).take budget.maxContextFiles
  if uniqueFiles.isEmpty then "No relevant files identified."
  else
    joinSep "\n\n---\n\n"
      (accumulateSummaries (readSummary fileRead budget.maxFileReadBytes)
        budget.maxContextSummaryBytes uniqueFiles 0)

/-- Models the objective-line computation: the first line of the prompt
with non-blank content, trimmed, falling back to the trimmed prompt. -/
def firstNonBlankLine (prompt : String) : String :=
  (((splitOnChar '\n' prompt).find? (fun l => 0 < (strTrim l).length)).map strTrim).getD
    (strTrim prompt)

/-- Models `buildDeltaPack`; `prior` is the stored
`lastChangedFilesHash` for the sub-session (none on first run),
`diffSnippet` / `failingTestDigest` are the probe results. -/
def buildDeltaPack (prior : Option String) (repoState : RepoState)
    (prompt diffSnippet failingTestDigest : String) : String :=
  let objective := firstNonBlankLine prompt
  match prior with
  | none =>
    joinSep "\n"
      ["first_run: true",
       "objective: " ++ clampByBytesS objective 200,
       "changed_files: " ++ orNone (joinSep ", " (repoState.changedFiles.take 20)),
       "failing_test_digest: " ++ orNone failingTestDigest,
       "",
       "[DIFF_SNIPPET]",
       orNone diffSnippet]
  | some lastHash =>
    if lastHash = repoState.changedFilesHash then
      joinSep "\n"
        ["repo_delta: unchanged",
         "objective: " ++ clampByBytesS objective 200,
         "failing_test_digest: " ++ orNone failingTestDigest]
    else
      joinSep "\n"
        ["repo_delta: changed",
         "objective: " ++ clampByBytesS objective 200,
         "changed_files: " ++ orNone (joinSep ", " (repoState.changedFiles.take 20)),
         "failing_test_digest: " ++ orNone failingTestDigest,
         "",
         "[DIFF_SNIPPET]",
         orNone diffSnippet]

/-! ## Association-list stores

The persistent tables and in-memory `Map`s are only ever read through
single-key lookups by the service, so an association list with
`upsert` = replace-or-insert is an observationally faithful model of both
the SQLite upsert and `Map.set`. -/

/-- Single-key lookup in a keyed store. -/
def lookupA {α : Type} (m : List (String × α)) (k : String) : Option α :=
  (m.find? (fun e => e.1 == k)).map Prod.snd

/-- Upsert (`onConflictDoUpdate` / `Map.set`). -/
def upsertA {α : Type} (m : List (String × α)) (k : String) (v : α) :
    List (String × α) :=
  (k, v) :: m.filter (fun e => !(e.1 == k))

theorem lookupA_upsertA_self {α : Type} (m : List (String × α)) (k : String) (v : α) :
    lookupA (upsertA m k v) k = some v := by
  simp [lookupA, upsertA, List.find?]

theorem lookupA_nil {α : Type} (k : String) : lookupA ([] : List (String × α)) k = none := rfl

/-! ## The `apply` operation -/

/-- The pure inputs `apply` receives from its caller. -/
structure ApplyInput where
  subChatId : String
  prompt : String
  mode : ChatMode
  provider : Provider

/-- The environment `apply` observes: configuration plus the results of
the repo probe, filesystem reads and message-store reads for this turn.
Two calls with identical inputs (same prompt, repo state, provider, mode
and budget) observe the same environment. -/
structure ApplyEnv where
  continuityMode : CMode
  budget : BudgetProfile
  repoRoot : String
  repoState : RepoState
  anchorAgents : Option String
  anchorClaude : Option String
  anchorReadme : Option String
  listing : List String
  fileRead : String → Option String
  diffSnippet : String
  failingTestDigest : String

/-- The `stateIds` block of the output. -/
structure StateIds where
  anchorPackId : String
  contextPackId : String
  deltaPackId : String
  planContractId : Option String
deriving DecidableEq, Repr

/-- The result record of `apply`. -/
structure ApplyOutput where
  prompt : String
  cacheHit : Bool
  injectedBytes : Nat
  reusedPercent : Nat
  stateIds : StateIds
deriving DecidableEq, Repr

/-- The state `apply` reads and writes: the pack cache (hot tier and table
written together), the per-sub-session `lastChangedFilesHash`
(`subChatState` hot tier / `continuity_state` row) and the in-memory
`protocolState`. -/
structure ApplyState where
  packCache : List (String × String)
  subChatState : List (String × String)
  protocolState : List (String × String)

/-- The empty process state (fresh process, empty tables). -/
def emptyApplyState : ApplyState := ⟨[], [], []⟩

/-- Models `getCachedPack`; an empty stored pack is falsy in the source
(`if (!row?.pack) return null`), hence treated as a miss. -/
def getCachedPack (st : ApplyState) (key : String) : Option String :=
  match lookupA st.packCache key with
  | some pack => if pack = "" then none else some pack
  | none => none

/-- The compound cache key: the colon-join of the six fields
(`[taskFingerprint, changedFilesHash, headCommit, provider, mode,
String(budget.maxPackBytes)].join(":")`).  Note the source does **not**
hash this joined string. -/
def cacheKeyOf (env : ApplyEnv) (input : ApplyInput) : String :=
  joinColon [sha (normalizePrompt input.prompt), env.repoState.changedFilesHash,
    env.repoState.headCommit, input.provider.str, input.mode.str,
    toString env.budget.maxPackBytes]

/-- The `[1CODE_CONTINUITY_STATE_IDS]` block lines. -/
def stateIdsBlock (s : StateIds) : List String :=
  ["[1CODE_CONTINUITY_STATE_IDS]",
   "anchorPackId: " ++ s.anchorPackId,
   "contextPackId: " ++ s.contextPackId,
   "deltaPackId: " ++ s.deltaPackId,
   "planContractId: " ++ s.planContractId.getD "none"]

/-- The delta-only envelope used on a repeated cache hit. -/
def deltaOnlyEnvelopeOf (ids : StateIds) (deltaPack objectiveLine : String) : String :=
  joinSep "\n"
    (stateIdsBlock ids ++
     ["", "[1CODE_CONTINUITY_DELTA]", deltaPack,
      "", "[1CODE_OBJECTIVE]", clampByBytesS objectiveLine 240,
      "", "[1CODE_USER_REQUEST]"])

/-- The full composite envelope built on a cache miss. -/
def compositeEnvelopeOf (ids : StateIds) (anchorPack contextPack planContract
    deltaPack objectiveLine : String) (isPlan : Bool) : String :=
  joinSep "\n"
    (stateIdsBlock ids ++
     ["", "[1CODE_CONTINUITY_ANCHOR]", anchorPack,
      "", "[1CODE_CONTINUITY_CONTEXT]", contextPack, ""] ++
     (if isPlan then ["[1CODE_PLAN_CONTRACT]", planContract, ""] else []) ++
     ["[1CODE_CONTINUITY_DELTA]", deltaPack,
      "", "[1CODE_OBJECTIVE]", clampByBytesS objectiveLine 240,
      "", "[1CODE_USER_REQUEST]"])

/-- Models `ContinuityService.apply`.  `injectedBytes` uses Nat
subtraction, which coincides with the source's `Math.max(a - b, 0)`. -/
def apply (env : ApplyEnv) (st : ApplyState) (input : ApplyInput) :
    ApplyOutput × ApplyState :=
  let fallbackIds : StateIds :=
    ⟨"none", "none", "none",
     if input.mode = .plan then some (sha (normalizePrompt input.prompt)) else none⟩
  if env.continuityMode = .off then
    (⟨input.prompt, false, 0, 100, fallbackIds⟩, st)
  else
    let taskFingerprint := sha (normalizePrompt input.prompt)
    let cacheKey := cacheKeyOf env input
    let objectiveLine := firstNonBlankLine input.prompt
    let anchorPackId := sha (env.repoRoot ++ ":anchor:" ++ env.repoState.headCommit)
    let contextPackId := sha cacheKey
    let planContractId :=
      if input.mode = .plan then some (sha (normalizePrompt input.prompt)) else none
    let cached := getCachedPack st cacheKey
    let deltaPack := buildDeltaPack (lookupA st.subChatState input.subChatId)
      env.repoState input.prompt env.diffSnippet env.failingTestDigest
    let deltaPackId := sha deltaPack
    let stateIds : StateIds := ⟨anchorPackId, contextPackId, deltaPackId, planContractId⟩
    let canUseDeltaOnly := lookupA st.protocolState input.subChatId == some cacheKey
    let deltaOnlyEnvelope := deltaOnlyEnvelopeOf stateIds deltaPack objectiveLine
    match cached with
    | some cachedPack =>
      let fullPrompt := cachedPack ++ "\n\n" ++ input.prompt
      let deltaOnlyPrompt := deltaOnlyEnvelope ++ "\n\n" ++ input.prompt
      let selectedPrompt := if canUseDeltaOnly then deltaOnlyPrompt else fullPrompt
      let injectedBytes := byteLen selectedPrompt - byteLen input.prompt
      let reusedPercent := if canUseDeltaOnly then 95 else 75
      let st1 := { st with protocolState := upsertA st.protocolState input.subChatId cacheKey }
      if env.continuityMode = .passive then
        (⟨input.prompt, true, 0, reusedPercent, stateIds⟩, st1)
      else
        (⟨selectedPrompt, true, injectedBytes, reusedPercent, stateIds⟩, st1)
    | none =>
      let anchorPack := buildAnchorPack env.anchorAgents env.anchorClaude env.anchorReadme
      let contextPack := buildContextPack env.fileRead env.listing env.repoState
        input.prompt env.budget
      let planContract :=
        if input.mode = .plan then
          "id: " ++ taskFingerprint ++ "\nmax_steps: 6\nobjective: " ++
            clampByBytesS objectiveLine 200 ++ "\nformat: compact-structured"
        else ""
      let composite := compositeEnvelopeOf stateIds anchorPack contextPack
        planContract deltaPack objectiveLine (input.mode = .plan)
      let budgeted := clampByBytesS composite env.budget.maxPackBytes
      let st1 : ApplyState :=
        ⟨upsertA st.packCache cacheKey budgeted,
         upsertA st.subChatState input.subChatId env.repoState.changedFilesHash,
         upsertA st.protocolState input.subChatId cacheKey⟩
      let injectedBytes := byteLen (budgeted ++ "\n\n" ++ input.prompt) - byteLen input.prompt
      if env.continuityMode = .passive then
        (⟨input.prompt, false, 0, 35, stateIds⟩, st1)
      else
        (⟨budgeted ++ "\n\n" ++ input.prompt, false, injectedBytes, 35, stateIds⟩, st1)


theorem byteLenL_single_le (c : Char) : byteLenL [c] ≤ 4 := by
  simp [byteLenL]
  exact Char.utf8Size_le_four c

theorem clampLoopChars_ne_nil (current : List Char) (maxBytes : Nat)
    (hne : current ≠ []) (hb : 4 ≤ maxBytes) :
    clampLoopChars current maxBytes ≠ [] := by
  induction current, maxBytes using clampLoopChars.induct with
  | case1 current maxBytes h ih =>
    rw [clampLoopChars, if_pos h]
    rcases current with _ | ⟨c, cs⟩
    · simp at h
    rcases cs with _ | ⟨c2, cs2⟩
    · exfalso
      have h1 := byteLenL_single_le c
      have := h.1
      omega
    · apply ih
      · have h2 : 1 ≤ shrink85 (c :: c2 :: cs2).length := by
          rw [shrink85, Nat.le_div_iff_mul_le (by norm_num)]
          simp only [List.length_cons]
          omega
        intro hcontra
        have hlen := congrArg List.length hcontra
        rw [List.length_take] at hlen
        simp only [List.length_nil] at hlen
        omega
      · exact hb
  | case2 current maxBytes h =>
    rw [clampLoopChars, if_neg h]
    exact hne

theorem clampByBytesS_ne_empty (s : String) (maxBytes : Nat)
    (hne : s.data ≠ []) (hb : 4 ≤ maxBytes) :
    clampByBytesS s maxBytes ≠ "" := by
  unfold clampByBytesS
  by_cases h : byteLen s ≤ maxBytes
  · rw [if_pos h]
    intro hc
    exact hne (congrArg String.data hc)
  · rw [if_neg h]
    intro hc
    exact clampLoopChars_ne_nil s.data maxBytes hne hb (congrArg String.data hc)


/-- The delta pack built on the very first run for a sub-session. -/
def firstDeltaPack (env : ApplyEnv) (input : ApplyInput) : String :=
  buildDeltaPack none env.repoState input.prompt env.diffSnippet env.failingTestDigest

/-- The delta pack built when the stored `lastChangedFilesHash` equals the
current one (repeat call with unchanged repo). -/
def unchangedDeltaPack (env : ApplyEnv) (input : ApplyInput) : String :=
  buildDeltaPack (some env.repoState.changedFilesHash) env.repoState input.prompt
    env.diffSnippet env.failingTestDigest

/-- The state ids computed by `apply` for a given prior delta pack. -/
def idsOf (env : ApplyEnv) (input : ApplyInput) (deltaPack : String) : StateIds :=
  ⟨sha (env.repoRoot ++ ":anchor:" ++ env.repoState.headCommit),
   sha (cacheKeyOf env input),
   sha deltaPack,
   if input.mode = .plan then some (sha (normalizePrompt input.prompt)) else none⟩

/-- The composite envelope built on the first (miss) call. -/
def firstComposite (env : ApplyEnv) (input : ApplyInput) : String :=
  compositeEnvelopeOf (idsOf env input (firstDeltaPack env input))
    (buildAnchorPack env.anchorAgents env.anchorClaude env.anchorReadme)
    (buildContextPack env.fileRead env.listing env.repoState input.prompt env.budget)
    (if input.mode = .plan then
      "id: " ++ sha (normalizePrompt input.prompt) ++ "\nmax_steps: 6\nobjective: " ++
        clampByBytesS (firstNonBlankLine input.prompt) 200 ++ "\nformat: compact-structured"
    else "")
    (firstDeltaPack env input) (firstNonBlankLine input.prompt) (input.mode = .plan)

/-- The budgeted pack stored on the first (miss) call. -/
def firstPack (env : ApplyEnv) (input : ApplyInput) : String :=
  clampByBytesS (firstComposite env input) env.budget.maxPackBytes

/-- The delta-only prompt produced on a repeat call with unchanged repo. -/
def repeatDeltaOnlyPrompt (env : ApplyEnv) (input : ApplyInput) : String :=
  deltaOnlyEnvelopeOf (idsOf env input (unchangedDeltaPack env input))
    (unchangedDeltaPack env input) (firstNonBlankLine input.prompt) ++
    "\n\n" ++ input.prompt

theorem compositeEnvelopeOf_ne_empty (ids : StateIds)
    (anchor context plan delta obj : String) (isPlan : Bool) :
    compositeEnvelopeOf ids anchor context plan delta obj isPlan ≠ "" := by
  unfold compositeEnvelopeOf stateIdsBlock
  simp only [List.cons_append]
  exact joinSep_ne_empty _ _ _ (by decide)

theorem apply_miss_from_empty (env : ApplyEnv) (input : ApplyInput)
    (hmode : env.continuityMode = .active) :
    apply env emptyApplyState input =
    (⟨firstPack env input ++ "\n\n" ++ input.prompt, false,
      byteLen (firstPack env input ++ "\n\n" ++ input.prompt) - byteLen input.prompt,
      35, idsOf env input (firstDeltaPack env input)⟩,
     ⟨[(cacheKeyOf env input, firstPack env input)],
      [(input.subChatId, env.repoState.changedFilesHash)],
      [(input.subChatId, cacheKeyOf env input)]⟩) := by
  simp only [apply, hmode, getCachedPack, lookupA, emptyApplyState,
    List.find?_nil, Option.map_none']
  rw [if_neg (show ¬(CMode.active = CMode.off) by decide),
      if_neg (show ¬(CMode.active = CMode.passive) by decide)]
  rfl

theorem apply_hit_repeat (env : ApplyEnv) (input : ApplyInput)
    (hmode : env.continuityMode = .active) (b : String) (hb : b ≠ "") :
    apply env
      ⟨[(cacheKeyOf env input, b)],
       [(input.subChatId, env.repoState.changedFilesHash)],
       [(input.subChatId, cacheKeyOf env input)]⟩ input =
    (⟨repeatDeltaOnlyPrompt env input, true,
      byteLen (repeatDeltaOnlyPrompt env input) - byteLen input.prompt,
      95, idsOf env input (unchangedDeltaPack env input)⟩,
     ⟨[(cacheKeyOf env input, b)],
      [(input.subChatId, env.repoState.changedFilesHash)],
      [(input.subChatId, cacheKeyOf env input)]⟩) := by
  simp only [apply, hmode, getCachedPack, lookupA, upsertA, List.find?,
    beq_self_eq_true, Option.map_some', List.filter, Bool.not_true, if_true]
  rw [if_neg (show ¬(CMode.active = CMode.off) by decide)]
  simp only [if_neg hb]
  rw [if_neg (show ¬(CMode.active = CMode.passive) by decide)]
  rfl

theorem str_data_ne_nil {s : String} (h : s ≠ "") : s.data ≠ [] :=
  fun hd => h (String.ext hd)

theorem firstPack_ne_empty (env : ApplyEnv) (input : ApplyInput)
    (hb4 : 4 ≤ env.budget.maxPackBytes) : firstPack env input ≠ "" := by
  apply clampByBytesS_ne_empty
  · exact str_data_ne_nil (by unfold firstComposite; exact compositeEnvelopeOf_ne_empty _ _ _ _ _ _ _)
  · exact hb4

theorem apply_repeat_bundle (env : ApplyEnv) (input : ApplyInput)
    (hmode : env.continuityMode = .active) (hb4 : 4 ≤ env.budget.maxPackBytes) :
    (apply env emptyApplyState input).1.cacheHit = false ∧
    (apply env emptyApplyState input).1.reusedPercent = 35 ∧
    (apply env (apply env emptyApplyState input).2 input).1.cacheHit = true ∧
    (apply env (apply env emptyApplyState input).2 input).1.reusedPercent = 95 ∧
    (apply env (apply env emptyApplyState input).2 input).1.prompt =
      repeatDeltaOnlyPrompt env input ∧
    (apply env (apply env (apply env emptyApplyState input).2 input).2 input).1 =
      (apply env (apply env emptyApplyState input).2 input).1 := by
  have h1 := apply_miss_from_empty env input hmode
  have h2 := apply_hit_repeat env input hmode (firstPack env input)
    (firstPack_ne_empty env input hb4)
  simp [h1, h2]

/-- A concrete environment used to instantiate the general theorems:
active continuity, normal token mode, a repo without git, no anchor files,
empty listing. -/
def sampleEnv : ApplyEnv :=
  { continuityMode := .active
    budget := getContinuityBudgetProfile .normal
    repoRoot := "/repo"
    repoState := ⟨"no-git", [], "no-changes"⟩
    anchorAgents := none
    anchorClaude := none
    anchorReadme := none
    listing := []
    fileRead := fun _ => none
    diffSnippet := ""
    failingTestDigest := "" }

/-- A concrete apply input for the sample environment. -/
def sampleInput : ApplyInput :=
  ⟨"sub-1", "Refactor the token bucket to use monotonic time", .agent, .claude⟩

/-- C1 (corrected): from an empty pack cache and `ProtocolState`, three
`apply` calls with identical inputs (active mode, budget of at least 4
bytes): the first is a cache miss (reused 35); since the miss already
records the cache key in `ProtocolState`, the second call — the first
repeat — is a cache hit with `reused_percent = 95` returning the
delta-only envelope, and the third call behaves identically. -/
theorem apply_repeat_cache_hits_delta_only (env : ApplyEnv) (input : ApplyInput)
    (hmode : env.continuityMode = .active) (hb4 : 4 ≤ env.budget.maxPackBytes) :
    (apply env emptyApplyState input).1.cacheHit = false ∧
    (apply env emptyApplyState input).1.reusedPercent = 35 ∧
    (apply env (apply env emptyApplyState input).2 input).1.cacheHit = true ∧
    (apply env (apply env emptyApplyState input).2 input).1.reusedPercent = 95 ∧
    (apply env (apply env emptyApplyState input).2 input).1.prompt =
      repeatDeltaOnlyPrompt env input ∧
    (apply env (apply env (apply env emptyApplyState input).2 input).2 input).1 =
      (apply env (apply env emptyApplyState input).2 input).1 :=
  apply_repeat_bundle env input hmode hb4

/-- C1 counterexample: at a concrete environment, the second of three
identical `apply` calls (the first repeat) reports `reused_percent = 95`,
not the claimed 75. -/
theorem second_apply_reused95_counterexample :
    (apply sampleEnv (apply sampleEnv emptyApplyState sampleInput).2 sampleInput).1.cacheHit
        = true ∧
    (apply sampleEnv (apply sampleEnv emptyApplyState sampleInput).2 sampleInput).1.reusedPercent
        = 95 ∧
    (apply sampleEnv (apply sampleEnv emptyApplyState sampleInput).2 sampleInput).1.reusedPercent
        ≠ 75 := by
  have h := apply_repeat_bundle sampleEnv sampleInput rfl (by decide)
  exact ⟨h.2.2.1, h.2.2.2.1, by rw [h.2.2.2.1]; decide⟩

/-- Witness for C1 at the concrete sample environment. -/
theorem apply_repeat_cache_hits_delta_only_witness :
    sampleEnv.continuityMode = .active ∧ 4 ≤ sampleEnv.budget.maxPackBytes ∧
    ((apply sampleEnv emptyApplyState sampleInput).1.cacheHit = false ∧
     (apply sampleEnv emptyApplyState sampleInput).1.reusedPercent = 35 ∧
     (apply sampleEnv (apply sampleEnv emptyApplyState sampleInput).2 sampleInput).1.cacheHit = true ∧
     (apply sampleEnv (apply sampleEnv emptyApplyState sampleInput).2 sampleInput).1.reusedPercent = 95 ∧
     (apply sampleEnv (apply sampleEnv emptyApplyState sampleInput).2 sampleInput).1.prompt =
       repeatDeltaOnlyPrompt sampleEnv sampleInput ∧
     (apply sampleEnv (apply sampleEnv (apply sampleEnv emptyApplyState sampleInput).2 sampleInput).2 sampleInput).1 =
       (apply sampleEnv (apply sampleEnv emptyApplyState sampleInput).2 sampleInput).1) :=
  ⟨rfl, by decide,
   apply_repeat_cache_hits_delta_only sampleEnv sampleInput rfl (by decide)⟩

theorem cacheKeyOf_ne_sha (env : ApplyEnv) (input : ApplyInput) (x : String) :
    cacheKeyOf env input ≠ sha x :=
  joinColon_ne_sha _ _ _ x

theorem apply_miss_stores_raw_key (env : ApplyEnv) (st : ApplyState) (input : ApplyInput)
    (hmode : env.continuityMode ≠ .off)
    (hmiss : getCachedPack st (cacheKeyOf env input) = none) :
    ∃ pack, (apply env st input).2.packCache =
      upsertA st.packCache (cacheKeyOf env input) pack := by
  cases hcm : env.continuityMode with
  | off => exact absurd hcm hmode
  | passive =>
    simp only [apply, hcm, hmiss, if_true, if_false]
    exact ⟨_, rfl⟩
  | active =>
    simp only [apply, hcm, hmiss, if_true, if_false]
    exact ⟨_, rfl⟩

/-- C2 (corrected): on every `apply` call with mode not off and a cache
miss, the key under which the pack is stored is the raw colon-join of the
six fields; it is never a sha256 hex digest of anything (it contains a
colon, which hex digests cannot), so in particular it is not the digest of
the rendered string.  `sha256` of the joined string is used only as the
`contextPackId` state id. -/
theorem pack_cache_key_raw_join (env : ApplyEnv) (st : ApplyState) (input : ApplyInput)
    (hmode : env.continuityMode ≠ .off)
    (hmiss : getCachedPack st (cacheKeyOf env input) = none) :
    (∃ pack, (apply env st input).2.packCache =
        upsertA st.packCache (cacheKeyOf env input) pack) ∧
    cacheKeyOf env input =
      joinColon [sha (normalizePrompt input.prompt), env.repoState.changedFilesHash,
        env.repoState.headCommit, input.provider.str, input.mode.str,
        toString env.budget.maxPackBytes] ∧
    (∀ x, cacheKeyOf env input ≠ sha x) :=
  ⟨apply_miss_stores_raw_key env st input hmode hmiss, rfl,
   fun x => cacheKeyOf_ne_sha env input x⟩

/-- C2 counterexample: at a concrete input, the stored pack-cache key is
the raw colon-joined string, and it differs from every `sha` digest. -/
theorem pack_cache_key_not_hashed_counterexample :
    (apply sampleEnv emptyApplyState sampleInput).2.packCache.map Prod.fst =
      [cacheKeyOf sampleEnv sampleInput] ∧
    (∀ x, cacheKeyOf sampleEnv sampleInput ≠ sha x) := by
  constructor
  · rw [apply_miss_from_empty sampleEnv sampleInput rfl]
    rfl
  · exact fun x => cacheKeyOf_ne_sha sampleEnv sampleInput x

/-- Witness for C2 at the concrete sample environment. -/
theorem pack_cache_key_raw_join_witness :
    sampleEnv.continuityMode ≠ .off ∧
    getCachedPack emptyApplyState (cacheKeyOf sampleEnv sampleInput) = none ∧
    ((∃ pack, (apply sampleEnv emptyApplyState sampleInput).2.packCache =
        upsertA emptyApplyState.packCache (cacheKeyOf sampleEnv sampleInput) pack) ∧
     cacheKeyOf sampleEnv sampleInput =
       joinColon [sha (normalizePrompt sampleInput.prompt),
         sampleEnv.repoState.changedFilesHash, sampleEnv.repoState.headCommit,
         sampleInput.provider.str, sampleInput.mode.str,
         toString sampleEnv.budget.maxPackBytes] ∧
     (∀ x, cacheKeyOf sampleEnv sampleInput ≠ sha x)) :=
  ⟨by decide, rfl,
   pack_cache_key_raw_join sampleEnv emptyApplyState sampleInput (by decide) rfl⟩

/-- Repo state with one changed file, used for the context-pack counterexample. -/
def c8Repo : RepoState := ⟨"abc123", ["src/app.ts"], "h1"⟩

/-- Filesystem with a single readable file, used for the context-pack
counterexample. -/
def c8FileRead : String → Option String :=
  fun p => if p = "src/app.ts" then some "export const a = 1" else none

/-- C8 counterexample: for a prompt with no extractable keywords but a
repo with a changed file, the context pack is the changed file's summary,
not the sentinel `"No relevant files identified."`. -/
theorem context_pack_changed_files_counterexample :
    extractKeywords "fix it" = [] ∧
    c8Repo.changedFiles ≠ [] ∧
    buildContextPack c8FileRead [] c8Repo "fix it" (getContinuityBudgetProfile .normal) =
      "file: src/app.ts\nlines: 1\nfirst_line: export const a = 1\nsymbols: export const a = 1" ∧
    buildContextPack c8FileRead [] c8Repo "fix it" (getContinuityBudgetProfile .normal) ≠
      "No relevant files identified." := by
  refine ⟨by decide, by decide, by decide, by decide⟩

/-- C8 (corrected): the sentinel `"No relevant files identified."` is
returned when the candidate list is empty; empty keyword extraction alone
does not force it.  With empty keywords **and** no changed files the
candidate list is empty and the sentinel is returned. -/
theorem context_pack_sentinel_requires_no_candidates (fileRead : String → Option String) (listing : List String)
    (repoState : RepoState) (prompt : String) (budget : BudgetProfile)
    (hkw : extractKeywords prompt = [])
    (hcf : repoState.changedFiles = []) :
    buildContextPack fileRead listing repoState prompt budget =
      "No relevant files identified." := by
  unfold buildContextPack
  rw [hkw, hcf]
  simp [searchRelevantFiles, dedupFirst]

/-- Witness for C8 at a concrete keyword-free prompt and empty repo. -/
theorem context_pack_sentinel_requires_no_candidates_witness :
    extractKeywords "fix it" = [] ∧
    (⟨"no-git", [], "no-changes"⟩ : RepoState).changedFiles = [] ∧
    buildContextPack c8FileRead [] ⟨"no-git", [], "no-changes"⟩ "fix it"
      (getContinuityBudgetProfile .normal) = "No relevant files identified." :=
  ⟨by decide, rfl,
   context_pack_sentinel_requires_no_candidates c8FileRead []
     ⟨"no-git", [], "no-changes"⟩ "fix it"
     (getContinuityBudgetProfile .normal) (by decide) rfl⟩

/-! ## Governor -/

/-- Governor thresholds (the source's constants). -/
def SNAPSHOT_TURN_THRESHOLD : Nat := 7
def REHYDRATE_TURN_THRESHOLD : Nat := 12
def SNAPSHOT_BYTES_THRESHOLD : Nat := 90000
def REHYDRATE_BYTES_THRESHOLD : Nat := 150000
def SNAPSHOT_FILES_THRESHOLD : Nat := 10
def REHYDRATE_FILES_THRESHOLD : Nat := 18
def SNAPSHOT_DIFF_THRESHOLD : Nat := 160
def REHYDRATE_DIFF_THRESHOLD : Nat := 280
def SNAPSHOT_ELAPSED_MS : Nat := 25 * 60 * 1000
def REHYDRATE_ELAPSED_MS : Nat := 50 * 60 * 1000
def DEVLOG_DIFF_THRESHOLD : Nat := 120
def DEVLOG_FILE_THRESHOLD : Nat := 6

/-- The governor's input signals. -/
structure GovInput where
  turnsSinceSnapshot : Nat
  totalInjectedBytes : Nat
  changedFilesCount : Nat
  diffLines : Nat
  elapsedSinceSnapshotMs : Nat
deriving DecidableEq, Repr

/-- Governor actions. -/
inductive GovernorAction | ok | snapshot | rehydrate
deriving DecidableEq, Repr

/-- String rendering of a governor action (used in artifact fingerprints). -/
def GovernorAction.str : GovernorAction → String
  | .ok => "ok"
  | .snapshot => "snapshot"
  | .rehydrate => "rehydrate"

/-- Promotion order `ok < snapshot < rehydrate` used to state monotonicity. -/
def GovernorAction.rank : GovernorAction → Nat
  | .ok => 0
  | .snapshot => 1
  | .rehydrate => 2

/-- A governor decision: the action and the reasons that fired. -/
structure GovernorDecision where
  action : GovernorAction
  reasons : List String
deriving DecidableEq, Repr

/-- The snapshot-level reasons accumulated by `decideGovernor`, in push
order. -/
def snapshotReasons (i : GovInput) : List String :=
  (if SNAPSHOT_TURN_THRESHOLD ≤ i.turnsSinceSnapshot then ["turn-pressure"] else []) ++
  (if SNAPSHOT_BYTES_THRESHOLD ≤ i.totalInjectedBytes then ["context-pressure"] else []) ++
  (if SNAPSHOT_FILES_THRESHOLD ≤ i.changedFilesCount then ["scope-pressure"] else []) ++
  (if SNAPSHOT_DIFF_THRESHOLD ≤ i.diffLines then ["diff-pressure"] else []) ++
  (if SNAPSHOT_ELAPSED_MS ≤ i.elapsedSinceSnapshotMs then ["time-pressure"] else [])

/-- The rehydrate-level (severe) reasons accumulated by `decideGovernor`. -/
def severeReasons (i : GovInput) : List String :=
  (if REHYDRATE_TURN_THRESHOLD ≤ i.turnsSinceSnapshot then ["turn-pressure-high"] else []) ++
  (if REHYDRATE_BYTES_THRESHOLD ≤ i.totalInjectedBytes then ["context-pressure-high"] else []) ++
  (if REHYDRATE_FILES_THRESHOLD ≤ i.changedFilesCount then ["scope-pressure-high"] else []) ++
  (if REHYDRATE_DIFF_THRESHOLD ≤ i.diffLines then ["diff-pressure-high"] else []) ++
  (if REHYDRATE_ELAPSED_MS ≤ i.elapsedSinceSnapshotMs then ["time-pressure-high"] else [])

/-- Models `decideGovernor`: rehydrate on ≥ 2 severe reasons, else snapshot
on ≥ 2 snapshot-level reasons, else ok. -/
def decideGovernor (i : GovInput) : GovernorDecision :=
  if 2 ≤ (severeReasons i).length then ⟨.rehydrate, severeReasons i⟩
  else if 2 ≤ (snapshotReasons i).length then ⟨.snapshot, snapshotReasons i⟩
  else ⟨.ok, []⟩

/-- Governor capabilities from config (`getContinuityGovernorCapabilities`). -/
structure Capabilities where
  snapshotEnabled : Bool
  rehydrateEnabled : Bool
deriving DecidableEq, Repr

/-- Models the capability-gating ternary of `recordRunOutcome`. -/
def effectiveGovernorAction (decision : GovernorAction) (caps : Capabilities) :
    GovernorAction :=
  if decision = .rehydrate ∧ ¬caps.rehydrateEnabled then
    (if caps.snapshotEnabled then .snapshot else .ok)
  else if decision = .snapshot ∧ ¬caps.snapshotEnabled then .ok
  else decision

/-! ## Event detector and artifacts -/

/-- Artifact types. -/
inductive ArtifactType | devlog | adr | rejectedApproach
deriving DecidableEq, Repr

/-- A stored memory artifact; `eventFingerprint`/`createdBy` model the two
fields the source always serializes into `provenance_json`. -/
structure Artifact where
  subChatId : String
  type : ArtifactType
  content : String
  status : String
  eventFingerprint : String
  createdBy : String
deriving DecidableEq, Repr

/-- Models `writeArtifactIfNew` on the artifact table, newest insert first
(so "order by createdAt descending, limit 12" is `take 12` of the
filtered list). -/
def writeArtifactIfNew (store : List Artifact) (subChatId : String)
    (ty : ArtifactType) (fp content : String) : List Artifact :=
  let existing := (store.filter
    (fun a => a.subChatId == subChatId && a.type == ty)).take 12
  if existing.any (fun a => a.eventFingerprint == fp) then store
  else ⟨subChatId, ty, content, "draft", fp, "continuity-service"⟩ :: store

/-- Models `String(b)` for a boolean. -/
def jsBoolStr (b : Bool) : String := if b then "true" else "false"

/-- The boundary-module path fixes checked by the event detector. -/
def boundaryModules : List String :=
  ["src/main/lib/trpc/", "src/main/lib/db/", "src/main/lib/continuity/",
   "src/main/lib/plugins/", "src/main/lib/mcp-", "src/main/lib/oauth",
   "src/main/lib/git/"]

/-- The result record of `detectMeaningfulEvents`. -/
structure MeaningfulEvents where
  devlog : Bool
  adr : Bool
  rejectedApproach : Bool
  rejectedReason : String
  reasons : List String
  boundaryFiles : List String
  eventFingerprint : String
deriving DecidableEq, Repr

/-- Models `detectMeaningfulEvents`. -/
def detectMeaningfulEvents (repoState : RepoState) (diffLines : Nat)
    (assistantResponse : String) (wasError : Bool) : MeaningfulEvents :=
  let reasons0 :=
    (if DEVLOG_DIFF_THRESHOLD ≤ diffLines then ["diff>120"] else []) ++
    (if DEVLOG_FILE_THRESHOLD ≤ repoState.changedFiles.length then
      ["changed_files>6"] else [])
  let responseLower := strToLower assistantResponse
  let rejectedReason := if wasError then "run-error" else "direction-change"
  let rejectedApproach := wasError || strContainsSub responseLower "instead" ||
    strContainsSub responseLower "alternative approach" ||
    strContainsSub responseLower "pivot"
  let boundaryFiles := repoState.changedFiles.filter
    (fun f => boundaryModules.any (fun m => strStartsWith f m))
  let adr := !boundaryFiles.isEmpty
  let reasons1 := reasons0 ++ (if adr then ["boundary-modules-touched"] else [])
  let reasons := reasons1 ++ (if wasError then ["run-error"] else [])
  let devlog := !reasons.isEmpty
  let eventFingerprint := sha (joinColon
    [repoState.headCommit, repoState.changedFilesHash, toString diffLines,
     jsBoolStr wasError, jsSliceStr responseLower 160])
  ⟨devlog, adr, rejectedApproach, rejectedReason, reasons, boundaryFiles,
   eventFingerprint⟩

/-! ## Safeguard gate and settings -/

/-- The artifact policy enum. -/
inductive ArtifactPolicy | autoWriteManualCommit | autoWriteMemoryBranch
deriving DecidableEq, Repr

/-- String rendering of the policy (as stored and logged). -/
def ArtifactPolicy.str : ArtifactPolicy → String
  | .autoWriteManualCommit => "auto-write-manual-commit"
  | .autoWriteMemoryBranch => "auto-write-memory-branch"

/-- The safeguard settings row (the `getSafeguardSettings` result). -/
structure SafeguardSettings where
  artifactPolicy : ArtifactPolicy
  autoCommitToMemoryBranch : Bool
  tokenMode : TokenMode
  memoryBranch : String
deriving DecidableEq, Repr

/-- The auto-commit eligibility record. -/
structure AutoCommitPolicy where
  requested : Bool
  allowed : Bool
  currentBranch : String
deriving DecidableEq, Repr

/-- Models `assessAutoCommitPolicy`; `currentBranch` is the branch-probe
result (or `"unknown"` on failure). -/
def assessAutoCommitPolicy (settings : SafeguardSettings)
    (currentBranch : String) : AutoCommitPolicy :=
  let requested := settings.artifactPolicy == .autoWriteMemoryBranch &&
    settings.autoCommitToMemoryBranch
  if !requested then ⟨false, false, currentBranch⟩
  else ⟨true, currentBranch == settings.memoryBranch, currentBranch⟩

/-! ## `record_run_outcome` -/

/-- The persisted `continuity_state` row for a sub-session. -/
structure SessionRow where
  lastChangedFilesHash : String
  turnsSinceSnapshot : Nat
  totalInjectedBytes : Nat
  lastSnapshotAt : Option Nat
deriving DecidableEq, Repr

/-- The state `record_run_outcome` reads and writes for one sub-session:
its session row (none before the first persist) and the artifact table. -/
structure RunState where
  session : Option SessionRow
  artifacts : List Artifact
deriving DecidableEq, Repr

/-- Environment observed by `record_run_outcome`: configuration plus the
repo-probe results for this turn. -/
structure RunEnv where
  continuityMode : CMode
  repoState : RepoState
  diffLines : Nat
  capabilities : Capabilities
  settings : SafeguardSettings
  currentBranch : String
  now : Nat
deriving Repr

/-- The caller-supplied inputs of `record_run_outcome`. -/
structure RunInput where
  subChatId : String
  provider : Provider
  mode : ChatMode
  prompt : String
  assistantResponse : String
  injectedBytes : Option Int
  wasError : Bool
deriving Repr

/-- Side effects outside the modelled state.  `vcsCommit` is included to
make "no commit is ever initiated" expressible; the source never invokes
one. -/
inductive RunEffect
  | governorTelemetry (provider : Provider) (mode : ChatMode)
      (action : GovernorAction) (reasonsCount : Nat)
  | safeguardTelemetry (action branch memoryBranch : String)
  | rehydrateSession (subChatId : String)
  | vcsCommit
deriving DecidableEq, Repr

/-- Content of the meaningful-event devlog artifact. -/
def devlogContent (env : RunEnv) (input : RunInput) (m : MeaningfulEvents)
    (pol : AutoCommitPolicy) : String :=
  joinSep "\n"
    ["provider: " ++ input.provider.str,
     "mode: " ++ input.mode.str,
     "commit: " ++ env.repoState.headCommit,
     "changed_files: " ++ orNone (joinSep ", " (env.repoState.changedFiles.take 24)),
     "diff_lines: " ++ toString env.diffLines,
     "signals: " ++ joinSep "; " m.reasons,
     "artifact_policy: " ++ env.settings.artifactPolicy.str,
     "memory_branch: " ++ env.settings.memoryBranch,
     "auto_commit_eligible: " ++ jsBoolStr pol.allowed,
     "",
     "prompt: " ++ clampByBytesS input.prompt 900,
     "",
     "assistant_summary: " ++ clampByBytesS input.assistantResponse 1500]

/-- Content of the ADR artifact. -/
def adrContent (input : RunInput) (m : MeaningfulEvents) : String :=
  joinSep "\n"
    ["status: draft",
     "context: boundary module touch detected (" ++
       joinSep ", " (m.boundaryFiles.take 12) ++ ")",
     "decision: TBD",
     "consequences: TBD",
     "",
     "prompt: " ++ clampByBytesS input.prompt 900]

/-- Content of the rejected-approach artifact. -/
def rejectedContent (input : RunInput) (m : MeaningfulEvents) : String :=
  joinSep "\n"
    ["reason: " ++ m.rejectedReason,
     "prompt: " ++ clampByBytesS input.prompt 900,
     "assistant_summary: " ++ clampByBytesS input.assistantResponse 1200]

/-- Content of the governor-action devlog artifact. -/
def governorDevlogContent (env : RunEnv) (eff : GovernorAction)
    (d : GovernorDecision) (pol : AutoCommitPolicy) : String :=
  joinSep "\n"
    ["governor_action: " ++ eff.str,
     "reasons: " ++ joinSep "; " d.reasons,
     "changed_files: " ++ orNone (joinSep ", " (env.repoState.changedFiles.take 20)),
     "diff_lines: " ++ toString env.diffLines,
     "artifact_policy: " ++ env.settings.artifactPolicy.str,
     "auto_commit_eligible: " ++ jsBoolStr pol.allowed]

/-- Content of the auto-commit-blocked devlog artifact. -/
def blockedContent (env : RunEnv) (pol : AutoCommitPolicy) : String :=
  joinSep "\n"
    ["safeguard: auto commit blocked",
     "current_branch: " ++ pol.currentBranch,
     "required_memory_branch: " ++ env.settings.memoryBranch,
     "policy: feature branches are protected from automatic continuity commits"]

/-- The governor input computed by `recordRunOutcome` (incremented
counters, probe results, elapsed time treated as beyond every threshold
when no snapshot was recorded). -/
def runGovInput (env : RunEnv) (st : RunState) (input : RunInput) : GovInput :=
  let current := st.session.getD ⟨"", 0, 0, none⟩
  ⟨current.turnsSinceSnapshot + 1,
   current.totalInjectedBytes + (max (input.injectedBytes.getD 0) 0).toNat,
   env.repoState.changedFiles.length,
   env.diffLines,
   match current.lastSnapshotAt with
   | some t => env.now - t
   | none => REHYDRATE_ELAPSED_MS + 1⟩

/-- The capability-gated effective action of a `recordRunOutcome` call. -/
def runEffectiveAction (env : RunEnv) (st : RunState) (input : RunInput) :
    GovernorAction :=
  effectiveGovernorAction (decideGovernor (runGovInput env st input)).action
    env.capabilities

/-- The session row persisted at the single commit point of
`recordRunOutcome` (`persistGovernorState`). -/
def nextSessionRow (env : RunEnv) (st : RunState) (input : RunInput) : SessionRow :=
  let current := st.session.getD ⟨"", 0, 0, none⟩
  let eff := runEffectiveAction env st input
  ⟨env.repoState.changedFilesHash,
   if eff = .ok then current.turnsSinceSnapshot + 1 else 0,
   if eff = .ok then
     current.totalInjectedBytes + (max (input.injectedBytes.getD 0) 0).toNat
   else 0,
   if eff = .ok then current.lastSnapshotAt else some env.now⟩

/-- The artifact table after the event-detector writes (devlog, adr,
rejected-approach, in source order). -/
def runEventArtifacts (env : RunEnv) (st : RunState) (input : RunInput) :
    List Artifact :=
  let autoCommitPolicy := assessAutoCommitPolicy env.settings env.currentBranch
  let meaningful := detectMeaningfulEvents env.repoState env.diffLines
    input.assistantResponse input.wasError
  let store1 :=
    if env.continuityMode = .active ∧ meaningful.devlog then
      writeArtifactIfNew st.artifacts input.subChatId .devlog
        meaningful.eventFingerprint (devlogContent env input meaningful autoCommitPolicy)
    else st.artifacts
  let store2 :=
    if env.continuityMode = .active ∧ meaningful.adr then
      writeArtifactIfNew store1 input.subChatId .adr
        (meaningful.eventFingerprint ++ ":adr") (adrContent input meaningful)
    else store1
  if env.continuityMode = .active ∧ meaningful.rejectedApproach then
    writeArtifactIfNew store2 input.subChatId .rejectedApproach
      (meaningful.eventFingerprint ++ ":rejected") (rejectedContent input meaningful)
  else store2

/-- The artifact table after the governor-action devlog write. -/
def runGovernorArtifacts (env : RunEnv) (st : RunState) (input : RunInput) :
    List Artifact :=
  let eff := runEffectiveAction env st input
  if env.continuityMode = .active ∧ eff ≠ .ok then
    writeArtifactIfNew (runEventArtifacts env st input) input.subChatId .devlog
      (input.subChatId ++ ":" ++ toString env.now ++ ":" ++ eff.str)
      (governorDevlogContent env eff (decideGovernor (runGovInput env st input))
        (assessAutoCommitPolicy env.settings env.currentBranch))
  else runEventArtifacts env st input

/-- The final artifact table, after the safeguard block-devlog write. -/
def runFinalArtifacts (env : RunEnv) (st : RunState) (input : RunInput) :
    List Artifact :=
  let autoCommitPolicy := assessAutoCommitPolicy env.settings env.currentBranch
  if env.continuityMode = .active ∧ autoCommitPolicy.requested ∧
      ¬autoCommitPolicy.allowed then
    writeArtifactIfNew (runGovernorArtifacts env st input) input.subChatId .devlog
      (env.repoState.headCommit ++ ":auto-commit-blocked:" ++
        autoCommitPolicy.currentBranch)
      (blockedContent env autoCommitPolicy)
  else runGovernorArtifacts env st input

/-- The emitted side effects, in source order (governor telemetry, then
safeguard telemetry when requested, then the rehydrate action). -/
def runEffects (env : RunEnv) (st : RunState) (input : RunInput) :
    List RunEffect :=
  let autoCommitPolicy := assessAutoCommitPolicy env.settings env.currentBranch
  let eff := runEffectiveAction env st input
  let effects0 :=
    [RunEffect.governorTelemetry input.provider input.mode eff
      (decideGovernor (runGovInput env st input)).reasons.length]
  let effects1 :=
    if env.continuityMode = .active ∧ autoCommitPolicy.requested then
      effects0 ++
        [RunEffect.safeguardTelemetry
          (if autoCommitPolicy.allowed then "auto-commit-allowed"
           else "auto-commit-blocked")
          autoCommitPolicy.currentBranch env.settings.memoryBranch]
    else effects0
  if env.continuityMode = .active ∧ eff = .rehydrate then
    effects1 ++ [RunEffect.rehydrateSession input.subChatId]
  else effects1

/-- Models `ContinuityService.recordRunOutcome`: the returned decision, the
updated state (session row, artifact table) and the emitted side effects,
in source order. -/
def recordRunOutcome (env : RunEnv) (st : RunState) (input : RunInput) :
    GovernorDecision × RunState × List RunEffect :=
  if env.continuityMode = .off then (⟨.ok, []⟩, st, [])
  else
    (⟨runEffectiveAction env st input,
      (decideGovernor (runGovInput env st input)).reasons⟩,
     ⟨some (nextSessionRow env st input), runFinalArtifacts env st input⟩,
     runEffects env st input)


theorem lenIf_mono {c d : Prop} [Decidable c] [Decidable d] (s : String) (h : c → d) :
    (if c then [s] else []).length ≤ (if d then [s] else []).length := by
  split_ifs <;> simp_all

theorem snapshotReasons_len_mono (a b : GovInput)
    (h1 : a.turnsSinceSnapshot ≤ b.turnsSinceSnapshot)
    (h2 : a.totalInjectedBytes ≤ b.totalInjectedBytes)
    (h3 : a.changedFilesCount ≤ b.changedFilesCount)
    (h4 : a.diffLines ≤ b.diffLines)
    (h5 : a.elapsedSinceSnapshotMs ≤ b.elapsedSinceSnapshotMs) :
    (snapshotReasons a).length ≤ (snapshotReasons b).length := by
  simp only [snapshotReasons, List.length_append]
  have t1 := lenIf_mono (c := SNAPSHOT_TURN_THRESHOLD ≤ a.turnsSinceSnapshot)
    (d := SNAPSHOT_TURN_THRESHOLD ≤ b.turnsSinceSnapshot) "turn-pressure"
    (fun h => le_trans h h1)
  have t2 := lenIf_mono (c := SNAPSHOT_BYTES_THRESHOLD ≤ a.totalInjectedBytes)
    (d := SNAPSHOT_BYTES_THRESHOLD ≤ b.totalInjectedBytes) "context-pressure"
    (fun h => le_trans h h2)
  have t3 := lenIf_mono (c := SNAPSHOT_FILES_THRESHOLD ≤ a.changedFilesCount)
    (d := SNAPSHOT_FILES_THRESHOLD ≤ b.changedFilesCount) "scope-pressure"
    (fun h => le_trans h h3)
  have t4 := lenIf_mono (c := SNAPSHOT_DIFF_THRESHOLD ≤ a.diffLines)
    (d := SNAPSHOT_DIFF_THRESHOLD ≤ b.diffLines) "diff-pressure"
    (fun h => le_trans h h4)
  have t5 := lenIf_mono (c := SNAPSHOT_ELAPSED_MS ≤ a.elapsedSinceSnapshotMs)
    (d := SNAPSHOT_ELAPSED_MS ≤ b.elapsedSinceSnapshotMs) "time-pressure"
    (fun h => le_trans h h5)
  omega

theorem severeReasons_len_mono (a b : GovInput)
    (h1 : a.turnsSinceSnapshot ≤ b.turnsSinceSnapshot)
    (h2 : a.totalInjectedBytes ≤ b.totalInjectedBytes)
    (h3 : a.changedFilesCount ≤ b.changedFilesCount)
    (h4 : a.diffLines ≤ b.diffLines)
    (h5 : a.elapsedSinceSnapshotMs ≤ b.elapsedSinceSnapshotMs) :
    (severeReasons a).length ≤ (severeReasons b).length := by
  simp only [severeReasons, List.length_append]
  have t1 := lenIf_mono (c := REHYDRATE_TURN_THRESHOLD ≤ a.turnsSinceSnapshot)
    (d := REHYDRATE_TURN_THRESHOLD ≤ b.turnsSinceSnapshot) "turn-pressure-high"
    (fun h => le_trans h h1)
  have t2 := lenIf_mono (c := REHYDRATE_BYTES_THRESHOLD ≤ a.totalInjectedBytes)
    (d := REHYDRATE_BYTES_THRESHOLD ≤ b.totalInjectedBytes) "context-pressure-high"
    (fun h => le_trans h h2)
  have t3 := lenIf_mono (c := REHYDRATE_FILES_THRESHOLD ≤ a.changedFilesCount)
    (d := REHYDRATE_FILES_THRESHOLD ≤ b.changedFilesCount) "scope-pressure-high"
    (fun h => le_trans h h3)
  have t4 := lenIf_mono (c := REHYDRATE_DIFF_THRESHOLD ≤ a.diffLines)
    (d := REHYDRATE_DIFF_THRESHOLD ≤ b.diffLines) "diff-pressure-high"
    (fun h => le_trans h h4)
  have t5 := lenIf_mono (c := REHYDRATE_ELAPSED_MS ≤ a.elapsedSinceSnapshotMs)
    (d := REHYDRATE_ELAPSED_MS ≤ b.elapsedSinceSnapshotMs) "time-pressure-high"
    (fun h => le_trans h h5)
  omega

theorem decideGovernor_mono (a b : GovInput)
    (h1 : a.turnsSinceSnapshot ≤ b.turnsSinceSnapshot)
    (h2 : a.totalInjectedBytes ≤ b.totalInjectedBytes)
    (h3 : a.changedFilesCount ≤ b.changedFilesCount)
    (h4 : a.diffLines ≤ b.diffLines)
    (h5 : a.elapsedSinceSnapshotMs ≤ b.elapsedSinceSnapshotMs) :
    (decideGovernor a).action.rank ≤ (decideGovernor b).action.rank := by
  have hsev := severeReasons_len_mono a b h1 h2 h3 h4 h5
  have hsnap := snapshotReasons_len_mono a b h1 h2 h3 h4 h5
  unfold decideGovernor
  split_ifs <;> simp_all [GovernorAction.rank] <;> omega

/-- C4: governor monotonicity.  Raising any subset of the five input
signals (in particular any single one, the others fixed) can only promote
the decided action along `ok → snapshot → rehydrate` (compared via
`GovernorAction.rank`), never demote it. -/
theorem governor_monotone_promotion (a b : GovInput)
    (h1 : a.turnsSinceSnapshot ≤ b.turnsSinceSnapshot)
    (h2 : a.totalInjectedBytes ≤ b.totalInjectedBytes)
    (h3 : a.changedFilesCount ≤ b.changedFilesCount)
    (h4 : a.diffLines ≤ b.diffLines)
    (h5 : a.elapsedSinceSnapshotMs ≤ b.elapsedSinceSnapshotMs) :
    (decideGovernor a).action.rank ≤ (decideGovernor b).action.rank :=
  decideGovernor_mono a b h1 h2 h3 h4 h5

/-- Witness for C4 at a concrete pair of inputs: raising only `diffLines`
from a `snapshot`-level tuple. -/
theorem governor_monotone_promotion_witness :
    (⟨7, 90000, 0, 0, 0⟩ : GovInput).turnsSinceSnapshot ≤
      (⟨7, 90000, 0, 300, 0⟩ : GovInput).turnsSinceSnapshot ∧
    (⟨7, 90000, 0, 0, 0⟩ : GovInput).diffLines ≤
      (⟨7, 90000, 0, 300, 0⟩ : GovInput).diffLines ∧
    (decideGovernor ⟨7, 90000, 0, 0, 0⟩).action.rank ≤
      (decideGovernor ⟨7, 90000, 0, 300, 0⟩).action.rank :=
  ⟨by decide, by decide,
   governor_monotone_promotion ⟨7, 90000, 0, 0, 0⟩ ⟨7, 90000, 0, 300, 0⟩
     (by decide) (by decide) (by decide) (by decide) (by decide)⟩


theorem effectiveGovernorAction_ne_rehydrate (caps : Capabilities)
    (hre : caps.rehydrateEnabled = false) (d : GovernorAction) :
    effectiveGovernorAction d caps ≠ .rehydrate := by
  cases d <;> simp [effectiveGovernorAction, hre] <;> split_ifs <;> simp_all

/-- C5: with `rehydrate_enabled = false` no `record_run_outcome` call ever
returns `rehydrate`; a `rehydrate` decision degrades to `snapshot` when
`snapshot_enabled` and to `ok` otherwise, and a `snapshot` decision with
`snapshot_enabled = false` degrades to `ok`. -/
theorem capability_gating_no_rehydrate (env : RunEnv) (st : RunState) (input : RunInput)
    (hre : env.capabilities.rehydrateEnabled = false) :
    (recordRunOutcome env st input).1.action ≠ .rehydrate ∧
    (∀ d : GovernorAction, effectiveGovernorAction d env.capabilities ≠ .rehydrate) ∧
    effectiveGovernorAction .rehydrate env.capabilities =
      (if env.capabilities.snapshotEnabled then .snapshot else .ok) ∧
    (env.capabilities.snapshotEnabled = false →
      effectiveGovernorAction .snapshot env.capabilities = .ok) := by
  refine ⟨?_, fun d => effectiveGovernorAction_ne_rehydrate _ hre d, ?_, ?_⟩
  · unfold recordRunOutcome
    by_cases hoff : env.continuityMode = .off
    · simp [hoff]
    · simp only [hoff, if_false]
      exact effectiveGovernorAction_ne_rehydrate _ hre _
  · simp [effectiveGovernorAction, hre]
  · intro hs
    simp [effectiveGovernorAction, hre, hs]

/-- C6: the single session-state write of `record_run_outcome` (mode not
off): on `ok` the incremented counters and the prior `last_snapshot_at` are
kept; on `snapshot`/`rehydrate` both counters are reset to zero and
`last_snapshot_at` is set to now — all in the same persisted row — and
`last_changed_files_hash` is always updated to the current value. -/
theorem session_state_commit_point (env : RunEnv) (st : RunState) (input : RunInput)
    (hmode : env.continuityMode ≠ .off) :
    ∃ row : SessionRow,
      (recordRunOutcome env st input).2.1.session = some row ∧
      row.lastChangedFilesHash = env.repoState.changedFilesHash ∧
      ((recordRunOutcome env st input).1.action = .ok →
        row.turnsSinceSnapshot =
          (st.session.getD ⟨"", 0, 0, none⟩).turnsSinceSnapshot + 1 ∧
        row.totalInjectedBytes =
          (st.session.getD ⟨"", 0, 0, none⟩).totalInjectedBytes +
            (max (input.injectedBytes.getD 0) 0).toNat ∧
        row.lastSnapshotAt = (st.session.getD ⟨"", 0, 0, none⟩).lastSnapshotAt) ∧
      ((recordRunOutcome env st input).1.action ≠ .ok →
        row.turnsSinceSnapshot = 0 ∧ row.totalInjectedBytes = 0 ∧
        row.lastSnapshotAt = some env.now) := by
  refine ⟨nextSessionRow env st input, ?_, ?_, ?_, ?_⟩
  · simp [recordRunOutcome, hmode]
  · rfl
  · intro hok
    have heff : runEffectiveAction env st input = .ok := by
      simpa [recordRunOutcome, hmode] using hok
    simp [nextSessionRow, heff]
  · intro hnok
    have heff : runEffectiveAction env st input ≠ .ok := by
      simpa [recordRunOutcome, hmode] using hnok
    simp [nextSessionRow, heff]

theorem writeArtifactIfNew_exists (store : List Artifact) (sub : String)
    (ty : ArtifactType) (fp content : String) :
    ∃ a ∈ writeArtifactIfNew store sub ty fp content,
      a.subChatId = sub ∧ a.type = ty ∧ a.eventFingerprint = fp := by
  unfold writeArtifactIfNew
  by_cases hdup : ((store.filter
      (fun a => a.subChatId == sub && a.type == ty)).take 12).any
      (fun a => a.eventFingerprint == fp)
  · rw [if_pos hdup]
    obtain ⟨a, ha, hfp⟩ := List.any_eq_true.mp hdup
    have hmem : a ∈ store.filter (fun a => a.subChatId == sub && a.type == ty) :=
      List.mem_of_mem_take ha
    have hpred := List.of_mem_filter hmem
    simp only [Bool.and_eq_true, beq_iff_eq] at hpred hfp
    exact ⟨a, List.mem_of_mem_filter hmem, hpred.1, hpred.2, hfp⟩
  · rw [if_neg hdup]
    exact ⟨_, List.mem_cons_self _ _, rfl, rfl, rfl⟩

theorem mem_writeArtifactIfNew_of_mem (store : List Artifact) (sub : String)
    (ty : ArtifactType) (fp content : String) (a : Artifact) (h : a ∈ store) :
    a ∈ writeArtifactIfNew store sub ty fp content := by
  simp only [writeArtifactIfNew]
  split_ifs
  · exact h
  · exact List.mem_cons_of_mem _ h

theorem vcsCommit_not_mem_runEffects (env : RunEnv) (st : RunState)
    (input : RunInput) : RunEffect.vcsCommit ∉ runEffects env st input := by
  simp only [runEffects]
  split_ifs <;> simp

/-- C9: in active mode, auto-commit is requested iff the policy is
auto-write-memory-branch with auto-commit enabled, allowed iff additionally
the current branch equals the memory branch; when requested but not
allowed, the artifact table afterwards contains a devlog whose event
fingerprint is `<head_commit>:auto-commit-blocked:<current_branch>`; and no
version-control commit effect is ever emitted. -/
theorem safeguard_blocks_and_never_commits (env : RunEnv) (st : RunState) (input : RunInput)
    (hactive : env.continuityMode = .active) :
    ((assessAutoCommitPolicy env.settings env.currentBranch).requested =
      (env.settings.artifactPolicy == .autoWriteMemoryBranch &&
        env.settings.autoCommitToMemoryBranch)) ∧
    ((assessAutoCommitPolicy env.settings env.currentBranch).allowed =
      ((assessAutoCommitPolicy env.settings env.currentBranch).requested &&
        env.currentBranch == env.settings.memoryBranch)) ∧
    ((assessAutoCommitPolicy env.settings env.currentBranch).requested = true →
      (assessAutoCommitPolicy env.settings env.currentBranch).allowed = false →
      ∃ a ∈ (recordRunOutcome env st input).2.1.artifacts,
        a.subChatId = input.subChatId ∧ a.type = .devlog ∧
        a.eventFingerprint = env.repoState.headCommit ++ ":auto-commit-blocked:" ++
          env.currentBranch) ∧
    RunEffect.vcsCommit ∉ (recordRunOutcome env st input).2.2 := by
  refine ⟨?_, ?_, ?_, ?_⟩
  · simp only [assessAutoCommitPolicy]
    split_ifs with h
    · simp_all
      tauto
    · simp_all
  · simp only [assessAutoCommitPolicy]
    split_ifs with h
    · simp_all
      try tauto
    · simp_all
      try tauto
  · intro hreq hnallow
    have hcur : (assessAutoCommitPolicy env.settings env.currentBranch).currentBranch =
        env.currentBranch := by
      simp only [assessAutoCommitPolicy]
      split_ifs <;> rfl
    have hart : (recordRunOutcome env st input).2.1.artifacts =
        runFinalArtifacts env st input := by
      simp [recordRunOutcome, hactive]
    rw [hart]
    simp only [runFinalArtifacts]
    rw [if_pos ⟨hactive, by simp [hreq], by simp [hnallow]⟩]
    rw [hcur]
    exact writeArtifactIfNew_exists _ _ _ _ _
  · have heq : (recordRunOutcome env st input).2.2 = runEffects env st input := by
      simp [recordRunOutcome, hactive]
    rw [heq]
    exact vcsCommit_not_mem_runEffects env st input

/-- A write request to the artifact writer. -/
structure WriteReq where
  subChatId : String
  type : ArtifactType
  eventFingerprint : String
  content : String
deriving DecidableEq, Repr

/-- Runs a sequence of `write_if_new` calls against an initially empty
artifact table. -/
def runWrites (reqs : List WriteReq) : List Artifact :=
  reqs.foldl (fun store r =>
    writeArtifactIfNew store r.subChatId r.type r.eventFingerprint r.content) []

/-- Windowed distinctness of a fingerprint list (newest first): each entry
differs from the next 12 entries. -/
def fpChainOk : List String → Prop
  | [] => True
  | x :: xs => x ∉ xs.take 12 ∧ fpChainOk xs

/-- The dedup guarantee `write_if_new` actually maintains: for every
`(sub_session_id, type)` pair, any two artifacts at most 12 apart in
recency order carry distinct event fingerprints. -/
def windowedUnique (store : List Artifact) : Prop :=
  ∀ (sub : String) (ty : ArtifactType),
    fpChainOk ((store.filter
      (fun a => a.subChatId == sub && a.type == ty)).map (·.eventFingerprint))

theorem windowedUnique_nil : windowedUnique [] := by
  intro sub ty
  simp [fpChainOk]

theorem writeArtifactIfNew_preserves (store : List Artifact)
    (h : windowedUnique store) (sub : String) (ty : ArtifactType)
    (fp content : String) :
    windowedUnique (writeArtifactIfNew store sub ty fp content) := by
  intro sub2 ty2
  simp only [writeArtifactIfNew]
  split_ifs with hdup
  · exact h sub2 ty2
  · simp only [List.filter_cons]
    by_cases hmatch : (sub == sub2 && (ty == ty2 : Bool)) = true
    · simp only [hmatch, if_pos]
      simp only [List.map_cons]
      refine ⟨?_, h sub2 ty2⟩
      -- fp is not among the first 12 fingerprints of the pair list
      simp only [Bool.and_eq_true, beq_iff_eq] at hmatch
      obtain ⟨hsub, hty⟩ := hmatch
      subst hsub
      subst hty
      intro hin
      apply hdup
      rw [List.any_eq_true]
      rw [← List.map_take] at hin
      obtain ⟨a, ha, hfa⟩ := List.mem_map.mp hin
      exact ⟨a, ha, by simp [hfa]⟩
    · simp only [hmatch, if_neg]
      exact h sub2 ty2

theorem runWrites_windowed_aux (reqs : List WriteReq) :
    ∀ store : List Artifact, windowedUnique store →
      windowedUnique (reqs.foldl (fun store r =>
        writeArtifactIfNew store r.subChatId r.type r.eventFingerprint r.content) store) := by
  induction reqs with
  | nil => intro store h; simpa using h
  | cons r rs ih =>
    intro store h
    exact ih _ (writeArtifactIfNew_preserves store h r.subChatId r.type
      r.eventFingerprint r.content)

/-- C7 (corrected): `write_if_new` deduplicates only against the 12 most
recent artifacts of the `(sub_session_id, type)` pair, so the invariant it
maintains for arbitrarily long call sequences is windowed: any two
artifacts of the same pair at distance at most 12 in recency order have
distinct event fingerprints.  Global uniqueness fails once 12 artifacts
separate two writes with the same fingerprint (see the counterexample). -/
theorem artifact_dedup_windowed (reqs : List WriteReq) :
    windowedUnique (runWrites reqs) :=
  runWrites_windowed_aux reqs [] windowedUnique_nil

/-- Fourteen writes for one `(sub_session_id, type)` pair: fingerprint `x`,
then twelve distinct fingerprints, then `x` again. -/
def c7Reqs : List WriteReq :=
  ⟨"s", .devlog, "x", ""⟩ ::
    ((["f01", "f02", "f03", "f04", "f05", "f06", "f07", "f08", "f09", "f10",
       "f11", "f12"].map (fun f => (⟨"s", .devlog, f, ""⟩ : WriteReq))) ++
      [⟨"s", .devlog, "x", ""⟩])

/-- C7 counterexample: after fourteen `write_if_new` calls for one
`(sub_session_id, type)` pair — fingerprint `x`, twelve distinct
fingerprints, then `x` again — the table holds two artifacts with
fingerprint `x`, violating the claimed global uniqueness. -/
theorem artifact_dedup_window_overflow_counterexample :
    ((runWrites c7Reqs).all
      (fun a => a.subChatId == "s" && a.type == .devlog)) = true ∧
    ((runWrites c7Reqs).filter (fun a => a.eventFingerprint == "x")).length = 2 := by
  constructor
  · decide
  · decide

/-- A concrete post-run environment: active mode, rehydrate capability
disabled (the default), auto-write-memory-branch policy with auto-commit
enabled, current branch differing from the memory branch. -/
def sampleRunEnv : RunEnv :=
  { continuityMode := .active
    repoState := ⟨"abc123", ["src/rate/bucket.rs"], "h1"⟩
    diffLines := 42
    capabilities := ⟨true, false⟩
    settings := ⟨.autoWriteMemoryBranch, true, .normal, "memory/continuity"⟩
    currentBranch := "feature/x"
    now := 1700000000000 }

/-- A concrete post-run input. -/
def sampleRunInput : RunInput :=
  ⟨"sub-1", .claude, .agent, "Refactor the token bucket", "done", some 100, false⟩

/-- A concrete fresh per-sub-session state. -/
def sampleRunState : RunState := ⟨none, []⟩

/-- Witness for C5 at the concrete environment. -/
theorem capability_gating_no_rehydrate_witness :
    sampleRunEnv.capabilities.rehydrateEnabled = false ∧
    ((recordRunOutcome sampleRunEnv sampleRunState sampleRunInput).1.action ≠ .rehydrate ∧
     (∀ d : GovernorAction,
        effectiveGovernorAction d sampleRunEnv.capabilities ≠ .rehydrate) ∧
     effectiveGovernorAction .rehydrate sampleRunEnv.capabilities =
       (if sampleRunEnv.capabilities.snapshotEnabled then .snapshot else .ok) ∧
     (sampleRunEnv.capabilities.snapshotEnabled = false →
       effectiveGovernorAction .snapshot sampleRunEnv.capabilities = .ok)) :=
  ⟨rfl, capability_gating_no_rehydrate sampleRunEnv sampleRunState sampleRunInput rfl⟩

/-- Witness for C6 at the concrete environment. -/
theorem session_state_commit_point_witness :
    sampleRunEnv.continuityMode ≠ .off ∧
    (∃ row : SessionRow,
      (recordRunOutcome sampleRunEnv sampleRunState sampleRunInput).2.1.session = some row ∧
      row.lastChangedFilesHash = sampleRunEnv.repoState.changedFilesHash ∧
      ((recordRunOutcome sampleRunEnv sampleRunState sampleRunInput).1.action = .ok →
        row.turnsSinceSnapshot =
          (sampleRunState.session.getD ⟨"", 0, 0, none⟩).turnsSinceSnapshot + 1 ∧
        row.totalInjectedBytes =
          (sampleRunState.session.getD ⟨"", 0, 0, none⟩).totalInjectedBytes +
            (max (sampleRunInput.injectedBytes.getD 0) 0).toNat ∧
        row.lastSnapshotAt =
          (sampleRunState.session.getD ⟨"", 0, 0, none⟩).lastSnapshotAt) ∧
      ((recordRunOutcome sampleRunEnv sampleRunState sampleRunInput).1.action ≠ .ok →
        row.turnsSinceSnapshot = 0 ∧ row.totalInjectedBytes = 0 ∧
        row.lastSnapshotAt = some sampleRunEnv.now)) :=
  ⟨by decide, session_state_commit_point sampleRunEnv sampleRunState sampleRunInput
    (by decide)⟩

/-- Witness for C9 at the concrete environment. -/
theorem safeguard_blocks_and_never_commits_witness :
    sampleRunEnv.continuityMode = .active ∧
    (((assessAutoCommitPolicy sampleRunEnv.settings sampleRunEnv.currentBranch).requested =
       (sampleRunEnv.settings.artifactPolicy == .autoWriteMemoryBranch &&
         sampleRunEnv.settings.autoCommitToMemoryBranch)) ∧
     ((assessAutoCommitPolicy sampleRunEnv.settings sampleRunEnv.currentBranch).allowed =
       ((assessAutoCommitPolicy sampleRunEnv.settings sampleRunEnv.currentBranch).requested &&
         sampleRunEnv.currentBranch == sampleRunEnv.settings.memoryBranch)) ∧
     ((assessAutoCommitPolicy sampleRunEnv.settings sampleRunEnv.currentBranch).requested = true →
       (assessAutoCommitPolicy sampleRunEnv.settings sampleRunEnv.currentBranch).allowed = false →
       ∃ a ∈ (recordRunOutcome sampleRunEnv sampleRunState sampleRunInput).2.1.artifacts,
         a.subChatId = sampleRunInput.subChatId ∧ a.type = .devlog ∧
         a.eventFingerprint = sampleRunEnv.repoState.headCommit ++
           ":auto-commit-blocked:" ++ sampleRunEnv.currentBranch) ∧
     RunEffect.vcsCommit ∉ (recordRunOutcome sampleRunEnv sampleRunState sampleRunInput).2.2) :=
  ⟨rfl, safeguard_blocks_and_never_commits sampleRunEnv sampleRunState sampleRunInput rfl⟩

end Continuity
